import Mathlib

/-!
Shallow embedding of the simulation core of `rusty-game` (a Bevy 2D action
RPG written in Rust) together with proofs about its combat resolver,
animation-completion gating, movement resolver, pickup economy, outcome
controller and restart protocol.

Conventions of the embedding:

* Rust `f32` arithmetic is modelled by exact rational arithmetic (`ℚ`);
  the tuned constants (2.2, 1.8, 0.85, 0.75, 0.48, 0.20, 0.15, ...) are the
  corresponding rationals.  `i32` / `usize` are modelled by `ℤ` / `ℕ`
  (the game's values stay far from the overflow range).
* Bevy ECS queries of a single entity (`get`, `get_mut`, `single`) are
  modelled as `Option`-valued lookups; a query over all entities of a kind
  is modelled as a `List` of component views.  An entity is modelled by the
  record of exactly the components the embedded systems read or write.
* The per-tick key/timer inputs (`just_pressed`, `is_finished`,
  `just_finished`) are Booleans sampled by the caller, and the two lazy
  `rand::random::<f32>()` draws of a combat turn are passed in as the
  rationals `r1` (hit roll) and `r2` (crit roll).
* `characters/animation.rs` and `map/generate.rs` are not part of the
  sources available under `src/`; the definitions taken from them are
  modelled from the spec and marked `Modelled from the spec:` in their doc
  comments.  In particular the world tile size (`TILE_SIZE`, defined in the
  missing `map/generate.rs`) is passed around as an explicit parameter
  `tile`.
-/

/-! ## Definitions -/

/-- Animation kinds, from `characters/config.rs` (`enum AnimationType`). -/
inductive AnimationType where
  | Walk
  | Run
  | Jump
  | Attack
  | Death
deriving DecidableEq, Repr, Fintype

/-- Modelled from the spec: the four cardinal facing directions kept by the
`AnimationController` of the missing `characters/animation.rs` (§3: "current
facing (one of 4 cardinal directions)"). -/
inductive Facing where
  | Up
  | Down
  | Left
  | Right
deriving DecidableEq, Repr, Fintype

/-- Modelled from the spec: the row offset a directional animation adds for
the current facing ("directional flag (4 rows: one per facing)", §3); the
concrete order of the four rows is not observable by any embedded check. -/
def Facing.toRowOffset : Facing → Nat
  | .Down => 0
  | .Up => 1
  | .Left => 2
  | .Right => 3

/-- Modelled from the spec: `Facing::from_direction` of the missing
`characters/animation.rs` — facing is "derived from the dominant axis of the
last nonzero movement/attack-target vector" (§3), with facing-down as the
default.  The callers in `src/` normalize the vector first
(`normalize_or_zero`), which does not change the dominant axis or the signs,
so the embedding reads the unnormalized vector directly. -/
def Facing.from_direction (v : ℚ × ℚ) : Facing :=
  if |v.1| > |v.2| then (if v.1 ≥ 0 then .Right else .Left)
  else if v.2 > 0 then .Up
  else .Down

/-- One animation's metadata, from `characters/config.rs`
(`struct AnimationDefinition`). -/
structure AnimationDefinition where
  start_row : Nat
  frame_count : Nat
  frame_time : ℚ
  directional : Bool
deriving DecidableEq, Repr

/-- A character definition, from `characters/config.rs`
(`struct CharacterEntry`).  The `HashMap<AnimationType, AnimationDefinition>`
is modelled as a total function into `Option`. -/
structure CharacterEntry where
  name : String
  max_health : ℚ
  attack_damage : ℚ
  base_move_speed : ℚ
  run_speed_multiplier : ℚ
  texture_path : String
  tile_size : Nat
  atlas_columns : Nat
  animations : AnimationType → Option AnimationDefinition
deriving DecidableEq

/-- Modelled from the spec: `AnimationClip` of the missing
`characters/animation.rs` — "the derived {row, frame_count, columns} view of
one animation kind" (§3, Glossary).  Its construction from a definition is
corroborated by the inlined uses in `src/combat.rs`
(`AnimationClip::new(row, def.frame_count, config.atlas_columns)`). -/
structure AnimationClip where
  row : Nat
  frame_count : Nat
  columns : Nat
deriving DecidableEq, Repr

/-- Modelled from the spec: `AnimationClip::new` (see `AnimationClip`). -/
def AnimationClip.new (row frame_count columns : Nat) : AnimationClip :=
  ⟨row, frame_count, columns⟩

/-- Modelled from the spec: the completion test of the missing
`characters/animation.rs` — "a clip is complete when the current atlas frame
index equals `row*columns + frame_count - 1` AND a per-frame timer has just
elapsed" (§4.1).  Subtraction is `Nat` truncated subtraction. -/
def AnimationClip.is_complete (c : AnimationClip) (index : Nat) (timerFired : Bool) : Bool :=
  decide (index = c.row * c.columns + c.frame_count - 1) && timerFired

/-- Modelled from the spec: the per-actor `AnimationController` of the
missing `characters/animation.rs` (§3: current animation kind and facing).
The fields are pinned by the uses in `src/combat.rs` and
`src/characters/movement.rs`. -/
structure AnimationController where
  current_animation : AnimationType
  facing : Facing
deriving DecidableEq, Repr

/-- Modelled from the spec: `AnimationController::get_clip` of the missing
`characters/animation.rs` — the design note asks for a pure
`lookup(definition, kind) -> Option<ClipMeta>` with the "missing = not
complete, never error" contract (§4.1); a directional definition selects the
row of the current facing. -/
def AnimationController.get_clip (ctrl : AnimationController) (config : CharacterEntry) :
    Option AnimationClip :=
  (config.animations ctrl.current_animation).map fun d =>
    AnimationClip.new
      (d.start_row + (if d.directional then ctrl.facing.toRowOffset else 0))
      d.frame_count config.atlas_columns

/-- Modelled from the spec: the `AnimationState` component of the missing
`characters/animation.rs`; its `is_moving` / `is_jumping` flags are pinned by
the uses in `src/characters/movement.rs` and `src/combat.rs`. -/
structure AnimationState where
  is_moving : Bool
  is_jumping : Bool
deriving DecidableEq, Repr

/-- Per-actor combat stats, from `src/combat.rs` (`struct CombatStats`). -/
structure CombatStats where
  max_hp : ℤ
  hp : ℤ
  attack : ℤ
  defense : ℤ
  crit_chance : ℚ
  evade_chance : ℚ
deriving DecidableEq, Repr

/-- The open combat session, from `src/combat.rs` (`struct ActiveCombat`).
The two `Entity` ids are not kept: the embedding models the lookups of the
referenced player/enemy entities directly as the `Option` actor views of
`CombatWorld`. -/
structure ActiveCombat where
  players_turn : Bool
deriving DecidableEq, Repr

/-- Whole-game outcome, from `src/combat.rs` (`enum GameOutcome`). -/
inductive GameOutcome where
  | None
  | GameOver
  | GameWon
deriving DecidableEq, Repr

/-- Result of one attack, from `src/combat.rs` (`enum AttackResult`). -/
inductive AttackResult where
  | Hit
  | Miss
deriving DecidableEq, Repr

/-- Combat log resource, from `src/combat.rs` (`struct CombatLog`). -/
structure CombatLog where
  last_player : Option AttackResult
  last_enemy : Option AttackResult
  last_msg : Option String
deriving DecidableEq, Repr

/-- The view of one combatant entity: all components of the player/enemy
entity that `combat_input_and_turns` and the death/jump checks read or
write (`CombatStats`, `GlobalTransform` truncated to 2D, the animation
components, the sprite's optional atlas index, the animation timer's
completion flag for this tick, and the `CharacterEntry`). -/
structure Actor where
  stats : CombatStats
  pos : ℚ × ℚ
  controller : AnimationController
  astate : AnimationState
  timerFinished : Bool
  atlasIndex : Option Nat
  config : CharacterEntry
deriving DecidableEq

/-- The state touched by `combat_input_and_turns`: the session resource and
the query results for the two referenced entities (`none` models a failed
`get`/`get_mut`, e.g. a despawned actor), plus the combat log. -/
structure CombatWorld where
  active : Option ActiveCombat
  player : Option Actor
  enemy : Option Actor
  clog : CombatLog
deriving DecidableEq

/-- Per-tick input of `combat_input_and_turns`: the turn-advance key edge
(`Space`/`Enter` just pressed) and the two lazy random draws. -/
structure CombatInput where
  proceed : Bool
  r1 : ℚ
  r2 : ℚ
deriving DecidableEq, Repr

/-- Rust `f32::round`: round half away from zero. -/
def rustRound (q : ℚ) : ℤ :=
  if 0 ≤ q then ⌊q + 1/2⌋ else ⌈q - 1/2⌉

/-- Rust `f32::clamp(lo, hi)` = `self.max(lo).min(hi)`. -/
def rustClamp (x lo hi : ℚ) : ℚ :=
  min (max x lo) hi

/-- `PLAYER_DAMAGE_MULTIPLIER` of `combat_input_and_turns` (2.2). -/
def PLAYER_DAMAGE_MULTIPLIER : ℚ := 22/10

/-- `ENEMY_DAMAGE_MULTIPLIER` of `combat_input_and_turns` (1.8). -/
def ENEMY_DAMAGE_MULTIPLIER : ℚ := 18/10

/-- The attack-in-progress test of `combat_input_and_turns`
(src/combat.rs:144-166): an actor blocks the turn advance iff its current
animation is `Attack`, its sprite has a texture atlas, its definition yields
a clip for `Attack`, and that clip's completion test is false.  A failed
entity lookup, a missing atlas or a missing clip leave the flag unset. -/
def attackInProgress (a : Option Actor) : Bool :=
  match a with
  | none => false
  | some a =>
    match a.controller.current_animation with
    | AnimationType.Attack =>
      match a.atlasIndex with
      | none => false
      | some idx =>
        match a.controller.get_clip a.config with
        | none => false
        | some clip => !(clip.is_complete idx a.timerFinished)
    | _ => false

/-- Sets `Attack` as current animation, recomputes facing toward `target`,
and clears `is_moving` (the attacker-animation trigger blocks of
`combat_input_and_turns`). -/
def Actor.setAttackAnim (a : Actor) (target : ℚ × ℚ) : Actor :=
  { a with
    controller :=
      { current_animation := AnimationType.Attack
        facing := Facing.from_direction (target.1 - a.pos.1, target.2 - a.pos.2) }
    astate := { a.astate with is_moving := false } }

/-- Sets `Death` as current animation and clears `is_moving` (the death
trigger blocks of `combat_input_and_turns`). -/
def Actor.setDeathAnim (a : Actor) : Actor :=
  { a with
    controller := { a.controller with current_animation := AnimationType.Death }
    astate := { a.astate with is_moving := false } }

/-- The outcome checks at the end of `combat_input_and_turns`
(src/combat.rs:249-271): enemy hp first, then player hp, else flip the
turn. -/
def checkOutcomes (active : ActiveCombat) (p e : Actor) (clog : CombatLog) : CombatWorld :=
  if e.stats.hp ≤ 0 then
    { active := none, player := some p, enemy := some e.setDeathAnim, clog := clog }
  else if p.stats.hp ≤ 0 then
    { active := none, player := some p.setDeathAnim, enemy := some e, clog := clog }
  else
    { active := some { players_turn := !active.players_turn }
      player := some p, enemy := some e, clog := clog }

/-- `combat_input_and_turns` (src/combat.rs:111-272): the main combat
driver.  Returns the updated session/actors/log. -/
def combat_input_and_turns (w : CombatWorld) (inp : CombatInput) : CombatWorld :=
  match w.active with
  | none => w
  | some active =>
    if !inp.proceed then w
    else if attackInProgress w.player || attackInProgress w.enemy then w
    else
      match w.player with
      | none => { w with active := none }
      | some p =>
        match w.enemy with
        | none => { w with active := none }
        | some e =>
          if active.players_turn then
            -- Player attacks enemy
            let hit_chance := rustClamp (85/100 - e.stats.evade_chance) (1/10) (95/100)
            if inp.r1 < hit_chance then
              let raw : ℤ := max (p.stats.attack - e.stats.defense) 1
              let dmg_f : ℚ := if inp.r2 < p.stats.crit_chance then (raw : ℚ) * 2 else (raw : ℚ)
              let dmg : ℤ := max (rustRound (dmg_f * PLAYER_DAMAGE_MULTIPLIER)) 1
              let e' := { e with stats := { e.stats with hp := e.stats.hp - dmg } }
              let clog' := { w.clog with
                last_player := some AttackResult.Hit
                last_msg := some ("Player hits enemy for " ++ toString dmg ++
                  " (enemy hp " ++ toString e'.stats.hp ++ ")") }
              checkOutcomes active (p.setAttackAnim e'.pos) e' clog'
            else
              let clog' := { w.clog with
                last_player := some AttackResult.Miss
                last_msg := some "Player missed!" }
              checkOutcomes active (p.setAttackAnim e.pos) e clog'
          else
            -- Enemy attacks player
            let hit_chance := rustClamp (75/100 - p.stats.evade_chance) (1/10) (95/100)
            if inp.r1 < hit_chance then
              let raw : ℤ := max (e.stats.attack - p.stats.defense) 1
              let dmg_f : ℚ := if inp.r2 < e.stats.crit_chance then (raw : ℚ) * 2 else (raw : ℚ)
              let dmg : ℤ := max (rustRound (dmg_f * ENEMY_DAMAGE_MULTIPLIER)) 1
              let p' := { p with stats := { p.stats with hp := p.stats.hp - dmg } }
              let clog' := { w.clog with
                last_enemy := some AttackResult.Hit
                last_msg := some ("Enemy hits player for " ++ toString dmg ++
                  " (player hp " ++ toString p'.stats.hp ++ ")") }
              checkOutcomes active p' (e.setAttackAnim p'.pos) clog'
            else
              let clog' := { w.clog with
                last_enemy := some AttackResult.Miss
                last_msg := some "Enemy missed!" }
              checkOutcomes active p (e.setAttackAnim p.pos) clog'

/-- `update_jump_state` (src/characters/movement.rs:153-181): once the jump
clip completes, clear `is_jumping` and return to `Walk`.  A missing atlas or
a missing clip leaves the state untouched. -/
def update_jump_state (a : Actor) : Actor :=
  if !a.astate.is_jumping then a
  else
    match a.atlasIndex with
    | none => a
    | some idx =>
      match a.controller.get_clip a.config with
      | none => a
      | some clip =>
        if clip.is_complete idx a.timerFinished then
          { a with
            astate := { a.astate with is_jumping := false }
            controller := { a.controller with current_animation := AnimationType.Walk } }
        else a

/-- Enemy spawn/alive tracker, from `characters/npc.rs`
(`struct EnemyTracker`). -/
structure EnemyTracker where
  spawned : Bool
  alive : Nat
deriving DecidableEq, Repr

/-- One iteration of the loop of `handle_enemy_death_cleanup`
(src/combat.rs:284-298) on a single enemy: returns whether the enemy was
despawned, together with the updated tracker and outcome.  The source builds
the clip inline from the `Death` entry (`row` is `start_row` in both arms of
its `if def.directional`), so the facing offset does not apply here. -/
def cleanupOne (a : Actor) (tracker : EnemyTracker) (outcome : GameOutcome) :
    Bool × EnemyTracker × GameOutcome :=
  match a.controller.current_animation with
  | AnimationType.Death =>
    match a.atlasIndex with
    | none => (false, tracker, outcome)
    | some idx =>
      match a.config.animations AnimationType.Death with
      | none => (false, tracker, outcome)
      | some def_ =>
        let row := def_.start_row
        let clip := AnimationClip.new row def_.frame_count a.config.atlas_columns
        if clip.is_complete idx a.timerFinished then
          let tracker' :=
            { tracker with alive := if tracker.alive > 0 then tracker.alive - 1 else tracker.alive }
          let outcome' := if tracker'.alive = 0 then GameOutcome.GameWon else outcome
          (true, tracker', outcome')
        else (false, tracker, outcome)
  | _ => (false, tracker, outcome)

/-- `handle_enemy_death_cleanup` (src/combat.rs:275-299): despawn each enemy
whose `Death` clip is complete, decrementing `alive` (floored at 0) and
setting the outcome to `GameWon` when `alive` reaches 0.  Returns the
surviving enemies and the updated tracker/outcome. -/
def handle_enemy_death_cleanup :
    List Actor → EnemyTracker → GameOutcome → List Actor × EnemyTracker × GameOutcome
  | [], tracker, outcome => ([], tracker, outcome)
  | a :: rest, tracker, outcome =>
    let r := cleanupOne a tracker outcome
    let rec_ := handle_enemy_death_cleanup rest r.2.1 r.2.2
    ((if r.1 then rec_.1 else a :: rec_.1), rec_.2.1, rec_.2.2)

/-- `handle_player_death_outcome` (src/combat.rs:302-322): after the
player's `Death` clip completes (and only while the outcome is still
`None`), set `GameOver`. -/
def handle_player_death_outcome (outcome : GameOutcome) (player : Option Actor) : GameOutcome :=
  match outcome with
  | GameOutcome.None =>
    match player with
    | none => outcome
    | some p =>
      match p.controller.current_animation with
      | AnimationType.Death =>
        match p.atlasIndex with
        | none => outcome
        | some idx =>
          match p.config.animations AnimationType.Death with
          | none => outcome
          | some def_ =>
            let row := def_.start_row
            let clip := AnimationClip.new row def_.frame_count p.config.atlas_columns
            if clip.is_complete idx p.timerFinished then GameOutcome.GameOver else outcome
      | _ => outcome
  | _ => outcome

/-- Health-pip spawn tracker, from `characters/health.rs`
(`struct HealthPipTracker`). -/
structure HealthPipTracker where
  spawned : Bool
deriving DecidableEq, Repr

/-- The player view touched by `handle_restart_input`: stats, the 2D
translation, and the animation components. -/
structure PlayerRestartView where
  stats : CombatStats
  translation : ℚ × ℚ
  controller : AnimationController
  astate : AnimationState
deriving DecidableEq

/-- The state touched by `handle_restart_input`: session, outcome, enemy
tracker and entities, the player (a failed `single_mut` is `none`), the
health pips (positions) and their tracker. -/
structure RestartWorld where
  active : Option ActiveCombat
  outcome : GameOutcome
  tracker : EnemyTracker
  enemies : List Actor
  player : Option PlayerRestartView
  pips : List (ℚ × ℚ)
  pipTracker : HealthPipTracker
deriving DecidableEq

/-- `handle_restart_input` (src/combat.rs:493-538): on the `R` key edge
(available at any time), end any session, despawn all enemies and reset the
tracker, restore the player (hp to max, position to the origin, animation to
`Walk`, `is_moving` cleared — the source does not touch `is_jumping`),
despawn all pips and reset their tracker, and set the outcome to `None`. -/
def handle_restart_input (restartPressed : Bool) (w : RestartWorld) : RestartWorld :=
  if !restartPressed then w
  else
    { active := none
      outcome := GameOutcome.None
      tracker := { spawned := false, alive := 0 }
      enemies := []
      player := w.player.map fun p =>
        { stats := { p.stats with hp := p.stats.max_hp }
          translation := (0, 0)
          controller := { p.controller with current_animation := AnimationType.Walk }
          astate := { p.astate with is_moving := false } }
      pips := []
      pipTracker := { spawned := false } }

/-- `PIP_HEAL_PERCENT` of `collect_health_pips` (0.15). -/
def PIP_HEAL_PERCENT : ℚ := 15/100

/-- The collection loop of `collect_health_pips`
(src/characters/health.rs:101-110), folded over the pip list: a pip within
`0.4 × tile` of the player heals `max(round(max_hp × 0.15), 1)`, clamped to
`max_hp`, and is despawned.  The Euclidean distance test `d ≤ radius` is
modelled by the equivalent squared comparison (both sides nonnegative). -/
def collectLoop (radius : ℚ) (playerPos : ℚ × ℚ) :
    List (ℚ × ℚ) → CombatStats → CombatStats × List (ℚ × ℚ)
  | [], stats => (stats, [])
  | pip :: rest, stats =>
    let dx := pip.1 - playerPos.1
    let dy := pip.2 - playerPos.2
    if dx ^ 2 + dy ^ 2 ≤ radius ^ 2 then
      let heal := max (rustRound ((stats.max_hp : ℚ) * PIP_HEAL_PERCENT)) 1
      let stats' := { stats with hp := min (stats.hp + heal) stats.max_hp }
      collectLoop radius playerPos rest stats'
    else
      let r := collectLoop radius playerPos rest stats
      (r.1, pip :: r.2)

/-- `collect_health_pips` (src/characters/health.rs:86-111): no-op unless
the outcome is `None`; otherwise collect every pip within `0.4 × tile` of
the player.  Returns the updated stats and the surviving pips. -/
def collect_health_pips (tile : ℚ) (outcome : GameOutcome) (playerPos : ℚ × ℚ)
    (stats : CombatStats) (pips : List (ℚ × ℚ)) : CombatStats × List (ℚ × ℚ) :=
  match outcome with
  | GameOutcome.None => collectLoop (tile * (4/10)) playerPos pips stats
  | _ => (stats, pips)

/-- `nonwalkable_half_extent` (src/map/collision.rs:28-31): the full half
tile.  `TILE_SIZE` lives in the missing `map/generate.rs`, so the tile size
is an explicit parameter throughout. -/
def nonwalkable_half_extent (tile : ℚ) : ℚ := tile * (1/2)

/-- `water_half_extent` (src/map/collision.rs:36-38): slightly less than
half a tile (0.48). -/
def water_half_extent (tile : ℚ) : ℚ := tile * (48/100)

/-- `would_collide_point` (src/characters/movement.rs:184-212): a point
collides iff it is within the inclusive solid AABB of some `NonWalkable`
tile, or strictly inside the smaller AABB of some `Water` tile.  Tiles are
given by their 2D centers. -/
def would_collide_point (tile : ℚ) (point : ℚ × ℚ) (solids waters : List (ℚ × ℚ)) : Bool :=
  solids.any (fun pos =>
    decide (|point.1 - pos.1| ≤ nonwalkable_half_extent tile) &&
    decide (|point.2 - pos.2| ≤ nonwalkable_half_extent tile)) ||
  waters.any (fun pos =>
    decide (|point.1 - pos.1| < water_half_extent tile) &&
    decide (|point.2 - pos.2| < water_half_extent tile))

/-- One sub-step of the collision loop of `move_player`
(src/characters/movement.rs:113-129): attempt the X move, then the Y move,
each skipped when its candidate point would collide (and not attempted at
all for a zero component). -/
def moveSubStep (tile : ℚ) (solids waters : List (ℚ × ℚ)) (step : ℚ × ℚ) (pos : ℚ × ℚ) :
    ℚ × ℚ :=
  let pos1 :=
    if step.1 ≠ 0 then
      if !would_collide_point tile (pos.1 + step.1, pos.2) solids waters then
        (pos.1 + step.1, pos.2)
      else pos
    else pos
  if step.2 ≠ 0 then
    if !would_collide_point tile (pos1.1, pos1.2 + step.2) solids waters then
      (pos1.1, pos1.2 + step.2)
    else pos1
  else pos1

/-- The sub-step count of `move_player` (src/characters/movement.rs:105-109):
`(max_component / (tile*0.20)).ceil().clamp(1.0, 8.0) as u32` when the
largest displacement component is positive, otherwise 1. -/
def stepsFor (tile : ℚ) (delta : ℚ × ℚ) : Nat :=
  let max_component := max |delta.1| |delta.2|
  let max_step_len := tile * (20/100)
  if max_component > 0 then
    (min (max (⌈max_component / max_step_len⌉) 1) 8).toNat
  else 1

/-- The swept, sub-stepped displacement resolution of `move_player`
(src/characters/movement.rs:100-129): split `delta` into `stepsFor` equal
sub-steps and run the X-then-Y loop from `start`. -/
def movePlayerFromDelta (tile : ℚ) (solids waters : List (ℚ × ℚ)) (delta : ℚ × ℚ)
    (start : ℚ × ℚ) : ℚ × ℚ :=
  let steps := stepsFor tile delta
  let step : ℚ × ℚ := (delta.1 / (steps : ℚ), delta.2 / (steps : ℚ))
  (moveSubStep tile solids waters step)^[steps] start

/-- The pressed/just-pressed keys read by `move_player`: the 8 movement
keys, the run modifier (`ShiftLeft`/`ShiftRight` collapsed to one flag, as
the source only uses their disjunction) and the jump key edge. -/
structure MoveKeys where
  arrowLeft : Bool
  arrowRight : Bool
  arrowUp : Bool
  arrowDown : Bool
  keyW : Bool
  keyA : Bool
  keyS : Bool
  keyD : Bool
  shift : Bool
  spaceJustPressed : Bool
deriving DecidableEq, Repr

/-- `read_movement_input` (src/characters/movement.rs:13-32): sum of the
unit contributions of the pressed movement keys. -/
def read_movement_input (k : MoveKeys) : ℚ × ℚ :=
  let c : Bool → ℚ × ℚ → ℚ × ℚ := fun b v => if b then v else (0, 0)
  let vs : List (ℚ × ℚ) :=
    [c k.arrowLeft (-1, 0), c k.arrowRight (1, 0), c k.arrowUp (0, 1), c k.arrowDown (0, -1),
     c k.keyW (0, 1), c k.keyA (-1, 0), c k.keyS (0, -1), c k.keyD (1, 0)]
  vs.foldl (fun a v => (a.1 + v.1, a.2 + v.2)) (0, 0)

/-- `calculate_movement_speed` (src/characters/movement.rs:35-41). -/
def calculate_movement_speed (character : CharacterEntry) (is_running : Bool) : ℚ :=
  if is_running then character.base_move_speed * character.run_speed_multiplier
  else character.base_move_speed

/-- The player view touched by `move_player`: the 2D translation and the
animation components, plus the read-only `CharacterEntry`. -/
structure MovePlayerView where
  translation : ℚ × ℚ
  controller : AnimationController
  astate : AnimationState
  config : CharacterEntry
deriving DecidableEq

/-- `move_player` (src/characters/movement.rs:49-148).  `normDir` stands
for `direction.normalize()`: the exact normalization of a diagonal
direction is irrational, so the embedding takes the normalized vector as an
input alongside the raw key state (it is only read in the
`direction != Vec2::ZERO` branch, mirroring the source's lazy use). -/
def move_player (tile : ℚ) (combatActive : Bool) (outcome : GameOutcome) (keys : MoveKeys)
    (normDir : ℚ × ℚ) (dt : ℚ) (solids waters : List (ℚ × ℚ)) (pv : MovePlayerView) :
    MovePlayerView :=
  -- If currently playing a Death animation, disable movement entirely
  if pv.controller.current_animation = AnimationType.Death then
    { pv with astate := { pv.astate with is_moving := false } }
  -- When combat starts (or an outcome overlay is showing), force idle
  else if combatActive || !(outcome = GameOutcome.None) then
    let st := { pv.astate with is_moving := false }
    if !st.is_jumping &&
        !(decide (pv.controller.current_animation = AnimationType.Death) ||
          decide (pv.controller.current_animation = AnimationType.Attack)) then
      { pv with
        astate := st,
        controller := { pv.controller with current_animation := AnimationType.Walk } }
    else { pv with astate := st }
  else
    let direction := read_movement_input keys
    -- Check for jump input (space key)
    let st1 := if keys.spaceJustPressed then { pv.astate with is_jumping := true } else pv.astate
    let ctrl1 :=
      if keys.spaceJustPressed then
        { pv.controller with current_animation := AnimationType.Jump }
      else pv.controller
    let is_running := keys.shift
    if direction ≠ (0, 0) then
      let move_speed := calculate_movement_speed pv.config is_running
      let delta : ℚ × ℚ := (normDir.1 * move_speed * dt, normDir.2 * move_speed * dt)
      let new_pos := movePlayerFromDelta tile solids waters delta pv.translation
      let ctrl2 := { ctrl1 with facing := Facing.from_direction direction }
      if !st1.is_jumping then
        { translation := new_pos
          controller :=
            { ctrl2 with
              current_animation :=
                if is_running then AnimationType.Run else AnimationType.Walk }
          astate := { st1 with is_moving := true }
          config := pv.config }
      else
        { translation := new_pos, controller := ctrl2, astate := st1, config := pv.config }
    else if !st1.is_jumping then
      { pv with
        controller := { ctrl1 with current_animation := AnimationType.Walk },
        astate := { st1 with is_moving := false } }
    else
      { pv with controller := ctrl1, astate := st1 }

/-- Claim-side sub-step count, written from the spec's words:
`clamp(ceil(max(|dx|,|dy|) / (tile_size*0.20)), 1, 8)` (§4.2). -/
def spec_substep_count (tile : ℚ) (delta : ℚ × ℚ) : Nat :=
  min (max (⌈max |delta.1| |delta.2| / (tile * (20/100))⌉.toNat) 1) 8

/-- Claim-side sub-step, written from the spec's words: "attempt the X move
then the Y move independently; a candidate position is rejected if it falls
inside any blocking or water region; rejected sub-steps simply skip that
axis" (§4.2) — no zero-component guards. -/
def spec_substep (tile : ℚ) (solids waters : List (ℚ × ℚ)) (step : ℚ × ℚ) (pos : ℚ × ℚ) :
    ℚ × ℚ :=
  let pos1 :=
    if would_collide_point tile (pos.1 + step.1, pos.2) solids waters then pos
    else (pos.1 + step.1, pos.2)
  if would_collide_point tile (pos1.1, pos1.2 + step.2) solids waters then pos1
  else (pos1.1, pos1.2 + step.2)

/-- Claim-side displacement resolution, written from the spec's words: the
intended displacement is split into `spec_substep_count` equal sub-steps,
each resolved by `spec_substep`. -/
def spec_resolve (tile : ℚ) (solids waters : List (ℚ × ℚ)) (delta : ℚ × ℚ)
    (start : ℚ × ℚ) : ℚ × ℚ :=
  let n := spec_substep_count tile delta
  let step : ℚ × ℚ := (delta.1 / (n : ℚ), delta.2 / (n : ℚ))
  (spec_substep tile solids waters step)^[n] start

/-- A character definition with no animation entries at all. -/
def exampleConfig : CharacterEntry :=
  { name := "knight", max_health := 30, attack_damage := 6, base_move_speed := 100,
    run_speed_multiplier := 2, texture_path := "sprites/knight.png", tile_size := 32,
    atlas_columns := 4, animations := fun _ => none }

/-- A character definition with a single-row 4-frame entry for every
animation kind (terminal atlas index 3). -/
def exampleConfigFull : CharacterEntry :=
  { exampleConfig with
    animations := fun _ =>
      some { start_row := 0, frame_count := 4, frame_time := 1/10, directional := false } }

/-- Player stats as `sync_player_stats` builds them (attack 6 from the
definition, defense 2, crit 0.15, evade 0.1). -/
def examplePlayerStats : CombatStats :=
  { max_hp := 30, hp := 30, attack := 6, defense := 2,
    crit_chance := 15/100, evade_chance := 1/10 }

/-- Enemy stats as `easy_enemy_stats` builds them (defense 0, crit/evade
0.10). -/
def exampleEnemyStats : CombatStats :=
  { max_hp := 50, hp := 50, attack := 3, defense := 0,
    crit_chance := 1/10, evade_chance := 1/10 }

def examplePlayer : Actor :=
  { stats := examplePlayerStats, pos := (0, 0),
    controller := { current_animation := AnimationType.Walk, facing := Facing.Down },
    astate := { is_moving := false, is_jumping := false },
    timerFinished := false, atlasIndex := some 0, config := exampleConfigFull }

def exampleEnemy : Actor :=
  { stats := exampleEnemyStats, pos := (10, 0),
    controller := { current_animation := AnimationType.Walk, facing := Facing.Down },
    astate := { is_moving := false, is_jumping := false },
    timerFinished := false, atlasIndex := some 0, config := exampleConfigFull }

def exampleLog : CombatLog := { last_player := none, last_enemy := none, last_msg := none }

/-- An actor has an in-flight `Attack` animation whose clip-completion test
is not yet satisfied: `Attack` is selected, an atlas and a clip exist, and
the clip's completion test is false. -/
def attackIncomplete (a : Actor) : Prop :=
  a.controller.current_animation = AnimationType.Attack ∧
  ∃ idx, a.atlasIndex = some idx ∧
    ∃ clip, a.controller.get_clip a.config = some clip ∧
      clip.is_complete idx a.timerFinished = false

/-- An enemy whose `Attack` animation is in flight: `Attack` selected, atlas
index 0, but the terminal atlas index of its 4-frame attack clip is 3. -/
def exampleAttackingEnemy : Actor :=
  { exampleEnemy with
    controller := { current_animation := AnimationType.Attack, facing := Facing.Down } }

/-- An enemy whose selected animation is `Attack` but whose character
definition has no `Attack` entry (so no clip exists). -/
def exampleAttackingEnemyNoClip : Actor :=
  { exampleEnemy with
    controller := { current_animation := AnimationType.Attack, facing := Facing.Down },
    config := exampleConfig }

/-- Key state with only the right-arrow key pressed. -/
def exampleKeysRight : MoveKeys :=
  { arrowLeft := false, arrowRight := true, arrowUp := false, arrowDown := false,
    keyW := false, keyA := false, keyS := false, keyD := false,
    shift := false, spaceJustPressed := false }

/-- The player view used by the movement witnesses. -/
def exampleMoveView : MovePlayerView :=
  { translation := (0, 0),
    controller := { current_animation := AnimationType.Walk, facing := Facing.Down },
    astate := { is_moving := false, is_jumping := false },
    config := exampleConfigFull }

/-- An enemy whose `Death` animation has just completed (terminal index 3 of
its 4-frame single-row clip, timer fired). -/
def exampleDyingEnemy : Actor :=
  { exampleEnemy with
    controller := { current_animation := AnimationType.Death, facing := Facing.Down },
    atlasIndex := some 3, timerFinished := true }

/-- A mid-jump player view as `handle_restart_input` sees it. -/
def examplePlayerRestart : PlayerRestartView :=
  { stats := { examplePlayerStats with hp := 1 },
    translation := (7, 9),
    controller := { current_animation := AnimationType.Jump, facing := Facing.Left },
    astate := { is_moving := true, is_jumping := true } }

/-- A populated world in a `Lost` outcome, as seen by `handle_restart_input`. -/
def exampleRestartWorld : RestartWorld :=
  { active := some ⟨true⟩, outcome := GameOutcome.GameOver, tracker := ⟨true, 2⟩,
    enemies := [exampleEnemy], player := some examplePlayerRestart,
    pips := [(5, 5)], pipTracker := ⟨true⟩ }

/-- An enemy at 5 hp, about to take 13 damage. -/
def exampleWeakEnemy : Actor :=
  { exampleEnemy with stats := { exampleEnemyStats with hp := 5 } }

/-- A session on the player's turn against the 5-hp enemy. -/
def exampleHitWorld : CombatWorld :=
  ⟨some ⟨true⟩, some examplePlayer, some exampleWeakEnemy, exampleLog⟩

/-! ## Theorems -/

theorem one_le_rustRound {q : ℚ} (h : 1 ≤ q) : 1 ≤ rustRound q := by
  unfold rustRound
  rw [if_pos (le_trans zero_le_one h)]
  exact Int.le_floor.mpr (by push_cast; linarith)

theorem rustRound_damage_eq (raw : ℤ) (hraw : 1 ≤ raw) (crit : Prop) [Decidable crit]
    (mult : ℚ) (hm : 9/5 ≤ mult) :
    max (rustRound ((if crit then (raw : ℚ) * 2 else (raw : ℚ)) * mult)) 1 =
      rustRound ((raw : ℚ) * (if crit then 2 else 1) * mult) ∧
    1 ≤ rustRound ((raw : ℚ) * (if crit then 2 else 1) * mult) := by
  have hrawQ : (1 : ℚ) ≤ (raw : ℚ) := by exact_mod_cast hraw
  have harg : (if crit then (raw : ℚ) * 2 else (raw : ℚ)) * mult =
      (raw : ℚ) * (if crit then 2 else 1) * mult := by
    by_cases hc : crit
    · simp only [if_pos hc]
    · simp only [if_neg hc]; ring
  have hge : 1 ≤ (raw : ℚ) * (if crit then 2 else 1) * mult := by
    by_cases hc : crit
    · simp only [if_pos hc]; nlinarith
    · simp only [if_neg hc]; nlinarith
  have h1 := one_le_rustRound hge
  refine ⟨?_, h1⟩
  rw [harg, max_eq_left h1]

theorem checkOutcomes_enemy_stats (a : ActiveCombat) (p e : Actor) (lg : CombatLog) :
    ∃ x, (checkOutcomes a p e lg).enemy = some x ∧ x.stats = e.stats := by
  unfold checkOutcomes Actor.setDeathAnim
  split
  · exact ⟨_, rfl, rfl⟩
  · split
    · exact ⟨_, rfl, rfl⟩
    · exact ⟨_, rfl, rfl⟩

theorem checkOutcomes_player_stats (a : ActiveCombat) (p e : Actor) (lg : CombatLog) :
    ∃ x, (checkOutcomes a p e lg).player = some x ∧ x.stats = p.stats := by
  unfold checkOutcomes Actor.setDeathAnim
  split
  · exact ⟨_, rfl, rfl⟩
  · split
    · exact ⟨_, rfl, rfl⟩
    · exact ⟨_, rfl, rfl⟩

/-- Claim C1: in `combat_input_and_turns`, on a hit the damage subtracted
from the defender's hp equals `round(max(attacker.attack −
defender.defense, 1) × c × m)` with `c = 2` on a successful crit draw and
`1` otherwise, and `m = 2.2` for a player attack, `1.8` for an enemy
attack; this damage is at least 1 for every combination of stats.  (The
scenario attack=6 / defense=0 / failed crit ⇒ 13 damage is the witness.) -/
theorem claimC1_damage_formula (a : ActiveCombat) (p e : Actor) (lg : CombatLog)
    (inp : CombatInput)
    (hproceed : inp.proceed = true)
    (hgp : attackInProgress (some p) = false)
    (hge : attackInProgress (some e) = false) :
    (a.players_turn = true →
      inp.r1 < rustClamp (85/100 - e.stats.evade_chance) (1/10) (95/100) →
      ∃ e', (combat_input_and_turns ⟨some a, some p, some e, lg⟩ inp).enemy = some e' ∧
        e'.stats.hp = e.stats.hp -
          rustRound (((max (p.stats.attack - e.stats.defense) 1 : ℤ) : ℚ) *
            (if inp.r2 < p.stats.crit_chance then 2 else 1) * PLAYER_DAMAGE_MULTIPLIER) ∧
        1 ≤ rustRound (((max (p.stats.attack - e.stats.defense) 1 : ℤ) : ℚ) *
            (if inp.r2 < p.stats.crit_chance then 2 else 1) * PLAYER_DAMAGE_MULTIPLIER)) ∧
    (a.players_turn = false →
      inp.r1 < rustClamp (75/100 - p.stats.evade_chance) (1/10) (95/100) →
      ∃ p', (combat_input_and_turns ⟨some a, some p, some e, lg⟩ inp).player = some p' ∧
        p'.stats.hp = p.stats.hp -
          rustRound (((max (e.stats.attack - p.stats.defense) 1 : ℤ) : ℚ) *
            (if inp.r2 < e.stats.crit_chance then 2 else 1) * ENEMY_DAMAGE_MULTIPLIER) ∧
        1 ≤ rustRound (((max (e.stats.attack - p.stats.defense) 1 : ℤ) : ℚ) *
            (if inp.r2 < e.stats.crit_chance then 2 else 1) * ENEMY_DAMAGE_MULTIPLIER)) := by
  constructor
  · intro ht hhit
    have hd := rustRound_damage_eq (max (p.stats.attack - e.stats.defense) 1)
      (le_max_right _ 1) (inp.r2 < p.stats.crit_chance) PLAYER_DAMAGE_MULTIPLIER
      (by unfold PLAYER_DAMAGE_MULTIPLIER; norm_num)
    simp only [combat_input_and_turns, hproceed, hgp, hge, ht, Bool.not_true,
      Bool.false_eq_true, if_false, Bool.or_self, if_true, if_pos hhit]
    obtain ⟨x, hx, hs⟩ := checkOutcomes_enemy_stats _ _ _ _
    exact ⟨x, hx, by rw [hs]; simp only [hd.1], hd.2⟩
  · intro ht hhit
    have hd := rustRound_damage_eq (max (e.stats.attack - p.stats.defense) 1)
      (le_max_right _ 1) (inp.r2 < e.stats.crit_chance) ENEMY_DAMAGE_MULTIPLIER
      (by unfold ENEMY_DAMAGE_MULTIPLIER; norm_num)
    simp only [combat_input_and_turns, hproceed, hgp, hge, ht, Bool.not_true,
      Bool.false_eq_true, if_false, Bool.or_self, if_true, if_pos hhit]
    obtain ⟨x, hx, hs⟩ := checkOutcomes_player_stats _ _ _ _
    exact ⟨x, hx, by rw [hs]; simp only [hd.1], hd.2⟩

/-- Witness for C1: the spec's own scenario — player attack with attack=6
against enemy defense=0 and a failed crit draw (r2 = 1 ≥ 0.15) deals
exactly `round(6 × 2.2) = 13`, dropping the enemy from 50 to 37 hp. -/
theorem claimC1_witness :
    ((0 : ℚ) < rustClamp (85/100 - exampleEnemy.stats.evade_chance) (1/10) (95/100)) ∧
    (∃ e', (combat_input_and_turns
        ⟨some ⟨true⟩, some examplePlayer, some exampleEnemy, exampleLog⟩
        ⟨true, 0, 1⟩).enemy = some e' ∧
      e'.stats.hp = exampleEnemy.stats.hp -
        rustRound (((max (examplePlayer.stats.attack - exampleEnemy.stats.defense) 1 : ℤ) : ℚ) *
          (if (1 : ℚ) < examplePlayer.stats.crit_chance then 2 else 1) *
          PLAYER_DAMAGE_MULTIPLIER) ∧
      1 ≤ rustRound (((max (examplePlayer.stats.attack - exampleEnemy.stats.defense) 1 : ℤ) : ℚ) *
          (if (1 : ℚ) < examplePlayer.stats.crit_chance then 2 else 1) *
          PLAYER_DAMAGE_MULTIPLIER)) ∧
    rustRound (((max (examplePlayer.stats.attack - exampleEnemy.stats.defense) 1 : ℤ) : ℚ) *
      (if (1 : ℚ) < examplePlayer.stats.crit_chance then 2 else 1) *
      PLAYER_DAMAGE_MULTIPLIER) = 13 :=
  ⟨by norm_num [rustClamp, exampleEnemy, exampleEnemyStats],
   (claimC1_damage_formula ⟨true⟩ examplePlayer exampleEnemy exampleLog ⟨true, 0, 1⟩
      rfl rfl rfl).1 rfl
      (by norm_num [rustClamp, exampleEnemy, exampleEnemyStats]),
   by norm_num [rustRound, examplePlayer, exampleEnemy, examplePlayerStats,
     exampleEnemyStats, PLAYER_DAMAGE_MULTIPLIER]⟩

theorem attackInProgress_of_incomplete {a : Actor} (h : attackIncomplete a) :
    attackInProgress (some a) = true := by
  obtain ⟨hanim, idx, hidx, clip, hclip, hcomp⟩ := h
  simp only [attackInProgress, hanim, hidx, hclip, hcomp]
  rfl

/-- Claim C2: a turn-advance key edge arriving while either combatant's
selected animation is `Attack` with an unsatisfied clip-completion test
leaves `combat_input_and_turns` a no-op: no hp is mutated, `players_turn`
is not flipped, and no animation state or combat-log field changes. -/
theorem claimC2_attack_gate_noop (a : ActiveCombat) (pOpt eOpt : Option Actor)
    (lg : CombatLog) (inp : CombatInput)
    (hproceed : inp.proceed = true)
    (h : (∃ p, pOpt = some p ∧ attackIncomplete p) ∨
         (∃ e, eOpt = some e ∧ attackIncomplete e)) :
    combat_input_and_turns ⟨some a, pOpt, eOpt, lg⟩ inp = ⟨some a, pOpt, eOpt, lg⟩ := by
  have hgate : (attackInProgress pOpt || attackInProgress eOpt) = true := by
    rcases h with ⟨p, hp, hi⟩ | ⟨e, he, hi⟩
    · rw [hp, attackInProgress_of_incomplete hi, Bool.true_or]
    · rw [he, attackInProgress_of_incomplete hi, Bool.or_true]
  simp only [combat_input_and_turns, hproceed, Bool.not_true, Bool.false_eq_true,
    if_false, hgate, if_true]

/-- Witness for C2: with the enemy of `claimC2_witness`'s concrete world
mid-attack, an advance input leaves the world untouched. -/
theorem claimC2_witness :
    attackIncomplete exampleAttackingEnemy ∧
    combat_input_and_turns
        ⟨some ⟨true⟩, some examplePlayer, some exampleAttackingEnemy, exampleLog⟩
        ⟨true, 0, 1⟩ =
      ⟨some ⟨true⟩, some examplePlayer, some exampleAttackingEnemy, exampleLog⟩ :=
  have hinc : attackIncomplete exampleAttackingEnemy :=
    ⟨rfl, 0, rfl, AnimationClip.new 0 4 4, rfl, rfl⟩
  ⟨hinc,
   claimC2_attack_gate_noop ⟨true⟩ (some examplePlayer) (some exampleAttackingEnemy)
     exampleLog ⟨true, 0, 1⟩ rfl (Or.inr ⟨exampleAttackingEnemy, rfl, hinc⟩)⟩

/-- Counterexample for C3: with the enemy mid-`Attack` but lacking an
`Attack` entry, the gate of `combat_input_and_turns` does NOT short-circuit
to "not complete" (which would block the advance): the advance is processed
and `players_turn` flips — the gate behaves as if the clip had completed. -/
theorem claimC3_counterexample :
    exampleAttackingEnemyNoClip.controller.current_animation = AnimationType.Attack ∧
    exampleAttackingEnemyNoClip.config.animations AnimationType.Attack = none ∧
    (combat_input_and_turns
        ⟨some ⟨true⟩, some examplePlayer, some exampleAttackingEnemyNoClip, exampleLog⟩
        ⟨true, 1, 1⟩).active = some ⟨false⟩ := by
  refine ⟨rfl, rfl, ?_⟩
  have hmiss : ¬ ((1 : ℚ) <
      rustClamp (85/100 - exampleAttackingEnemyNoClip.stats.evade_chance) (1/10) (95/100)) := by
    norm_num [rustClamp, exampleAttackingEnemyNoClip, exampleEnemy, exampleEnemyStats]
  have hgate : (attackInProgress (some examplePlayer) ||
      attackInProgress (some exampleAttackingEnemyNoClip)) = false := rfl
  simp only [combat_input_and_turns, hgate, Bool.not_true, Bool.false_eq_true, if_false,
    if_true, if_neg hmiss]
  rfl

/-- Claim C3 (amended): when the actor's character definition has no entry
for the animation kind being checked, no check crashes (all embedded checks
are total), and (1) the jump-state reset, (2) the enemy death-to-despawn
transition and (3) the player death-to-outcome transition each short-circuit
to "not complete" and leave their state untouched; the attack-animation gate
of the turn advance, however, treats the missing entry as "no attack in
progress", so the advance proceeds instead of being blocked. -/
theorem claimC3_missing_clip (a : Actor) (tracker : EnemyTracker) (outcome : GameOutcome)
    (hmiss : a.config.animations a.controller.current_animation = none) :
    update_jump_state a = a ∧
    cleanupOne a tracker outcome = (false, tracker, outcome) ∧
    handle_player_death_outcome outcome (some a) = outcome ∧
    attackInProgress (some a) = false := by
  have hclip : a.controller.get_clip a.config = none := by
    unfold AnimationController.get_clip
    rw [hmiss]
    rfl
  refine ⟨?_, ?_, ?_, ?_⟩
  · cases hj : a.astate.is_jumping
    · simp [update_jump_state, hj]
    · cases hatl : a.atlasIndex
      · simp [update_jump_state, hj, hatl]
      · simp [update_jump_state, hj, hatl, hclip]
  · cases hanim : a.controller.current_animation
    case Death =>
      rw [hanim] at hmiss
      cases hatl : a.atlasIndex
      · simp [cleanupOne, hanim, hatl]
      · simp [cleanupOne, hanim, hatl, hmiss]
    all_goals simp_all [cleanupOne]
  · cases outcome
    case None =>
      cases hanim : a.controller.current_animation
      case Death =>
        rw [hanim] at hmiss
        cases hatl : a.atlasIndex
        · simp [handle_player_death_outcome, hanim, hatl]
        · simp [handle_player_death_outcome, hanim, hatl, hmiss]
      all_goals simp_all [handle_player_death_outcome]
    all_goals rfl
  · cases hanim : a.controller.current_animation
    case Attack =>
      cases hatl : a.atlasIndex
      · simp [attackInProgress, hanim, hatl]
      · simp [attackInProgress, hanim, hatl, hclip]
    all_goals simp_all [attackInProgress]

/-- Witness for the amended C3: the actor whose definition lacks the entry
for its selected `Attack` animation satisfies all four conclusions. -/
theorem claimC3_witness :
    exampleAttackingEnemyNoClip.config.animations
        exampleAttackingEnemyNoClip.controller.current_animation = none ∧
    (update_jump_state exampleAttackingEnemyNoClip = exampleAttackingEnemyNoClip ∧
     cleanupOne exampleAttackingEnemyNoClip ⟨true, 3⟩ GameOutcome.None =
       (false, ⟨true, 3⟩, GameOutcome.None) ∧
     handle_player_death_outcome GameOutcome.None (some exampleAttackingEnemyNoClip) =
       GameOutcome.None ∧
     attackInProgress (some exampleAttackingEnemyNoClip) = false) :=
  ⟨rfl, claimC3_missing_clip exampleAttackingEnemyNoClip ⟨true, 3⟩ GameOutcome.None rfl⟩

theorem checkOutcomes_cases (a : ActiveCombat) (P E : Actor) (lg : CombatLog) :
    ∃ p' e', (checkOutcomes a P E lg).player = some p' ∧
      (checkOutcomes a P E lg).enemy = some e' ∧
      p'.stats = P.stats ∧ e'.stats = E.stats ∧
      (E.stats.hp ≤ 0 →
        (checkOutcomes a P E lg).active = none ∧
        e'.controller.current_animation = AnimationType.Death ∧
        p'.controller = P.controller) ∧
      (0 < E.stats.hp → P.stats.hp ≤ 0 →
        (checkOutcomes a P E lg).active = none ∧
        p'.controller.current_animation = AnimationType.Death ∧
        e'.controller = E.controller) ∧
      (0 < E.stats.hp → 0 < P.stats.hp →
        (checkOutcomes a P E lg).active = some ⟨!a.players_turn⟩ ∧ p' = P ∧ e' = E) := by
  by_cases h1 : E.stats.hp ≤ 0
  · refine ⟨P, E.setDeathAnim, ?_, ?_, rfl, rfl, ?_, ?_, ?_⟩
    · simp [checkOutcomes, h1]
    · simp [checkOutcomes, h1]
    · intro _
      exact ⟨by simp [checkOutcomes, h1], rfl, rfl⟩
    · intro h1' _
      exact absurd h1 (not_le.mpr h1')
    · intro h1' _
      exact absurd h1 (not_le.mpr h1')
  · by_cases h2 : P.stats.hp ≤ 0
    · refine ⟨P.setDeathAnim, E, ?_, ?_, rfl, rfl, ?_, ?_, ?_⟩
      · simp [checkOutcomes, h1, h2]
      · simp [checkOutcomes, h1, h2]
      · intro h; exact absurd h h1
      · intro _ _
        exact ⟨by simp [checkOutcomes, h1, h2], rfl, rfl⟩
      · intro _ h2'
        exact absurd h2 (not_le.mpr h2')
    · refine ⟨P, E, ?_, ?_, rfl, rfl, ?_, ?_, ?_⟩
      · simp [checkOutcomes, h1, h2]
      · simp [checkOutcomes, h1, h2]
      · intro h; exact absurd h h1
      · intro _ h; exact absurd h h2
      · intro _ _
        exact ⟨by simp [checkOutcomes, h1, h2], rfl, rfl⟩

theorem combat_resolution_cases (a : ActiveCombat) (p e : Actor) (lg : CombatLog)
    (inp : CombatInput)
    (hproceed : inp.proceed = true)
    (hgp : attackInProgress (some p) = false)
    (hge : attackInProgress (some e) = false) :
    ∃ P E CLOG,
      combat_input_and_turns ⟨some a, some p, some e, lg⟩ inp = checkOutcomes a P E CLOG ∧
      (a.players_turn = true →
        P = p.setAttackAnim e.pos ∧
        (E = e ∨ ∃ dmg : ℤ, 1 ≤ dmg ∧
          E = { e with stats := { e.stats with hp := e.stats.hp - dmg } }) ∧
        (¬ inp.r1 < rustClamp (85/100 - e.stats.evade_chance) (1/10) (95/100) → E = e)) ∧
      (a.players_turn = false →
        E = e.setAttackAnim p.pos ∧
        (P = p ∨ ∃ dmg : ℤ, 1 ≤ dmg ∧
          P = { p with stats := { p.stats with hp := p.stats.hp - dmg } }) ∧
        (¬ inp.r1 < rustClamp (75/100 - p.stats.evade_chance) (1/10) (95/100) → P = p)) := by
  cases hpt : a.players_turn
  · simp only [combat_input_and_turns, hproceed, hgp, hge, hpt, Bool.not_true,
      Bool.false_eq_true, if_false, Bool.or_self, if_true]
    by_cases hhit : inp.r1 < rustClamp (75/100 - p.stats.evade_chance) (1/10) (95/100)
    · refine ⟨_, _, _, by rw [if_pos hhit], ?_, ?_⟩
      · intro h; exact absurd h (by simp)
      · intro _
        exact ⟨rfl, Or.inr ⟨_, le_max_right _ 1, rfl⟩, fun h => absurd hhit h⟩
    · refine ⟨_, _, _, by rw [if_neg hhit], ?_, ?_⟩
      · intro h; exact absurd h (by simp)
      · intro _
        exact ⟨rfl, Or.inl rfl, fun _ => rfl⟩
  · simp only [combat_input_and_turns, hproceed, hgp, hge, hpt, Bool.not_true,
      Bool.false_eq_true, if_false, Bool.or_self, if_true]
    by_cases hhit : inp.r1 < rustClamp (85/100 - e.stats.evade_chance) (1/10) (95/100)
    · refine ⟨_, _, _, by rw [if_pos hhit], ?_, ?_⟩
      · intro _
        exact ⟨rfl, Or.inr ⟨_, le_max_right _ 1, rfl⟩, fun h => absurd hhit h⟩
      · intro h; exact absurd h (by simp)
    · refine ⟨_, _, _, by rw [if_neg hhit], ?_, ?_⟩
      · intro _
        exact ⟨rfl, Or.inl rfl, fun _ => rfl⟩
      · intro h; exact absurd h (by simp)

/-- Claim C4: on every successful turn advance exactly one of the following
happens — the defender survives and `players_turn` flips, or a combatant's
hp is ≤ 0, that combatant's animation is set to `Death` and the session is
closed without flipping the turn; the enemy's death is checked before the
player's (on the player's turn the still-alive-checked player keeps its
`Attack` animation; on the enemy's turn its controller is untouched); and a
stats-lookup failure for either referenced combatant force-closes the
session without resolving a turn. -/
theorem claimC4_advance_invariant (a : ActiveCombat) (pOpt eOpt : Option Actor)
    (lg : CombatLog) (inp : CombatInput)
    (hproceed : inp.proceed = true)
    (hgp : attackInProgress pOpt = false)
    (hge : attackInProgress eOpt = false) :
    ((pOpt = none ∨ eOpt = none) →
      combat_input_and_turns ⟨some a, pOpt, eOpt, lg⟩ inp = ⟨none, pOpt, eOpt, lg⟩) ∧
    (∀ p e, pOpt = some p → eOpt = some e →
      ∃ p' e',
        (combat_input_and_turns ⟨some a, pOpt, eOpt, lg⟩ inp).player = some p' ∧
        (combat_input_and_turns ⟨some a, pOpt, eOpt, lg⟩ inp).enemy = some e' ∧
        (e'.stats.hp ≤ 0 →
          (combat_input_and_turns ⟨some a, pOpt, eOpt, lg⟩ inp).active = none ∧
          e'.controller.current_animation = AnimationType.Death ∧
          (a.players_turn = true → p'.controller.current_animation = AnimationType.Attack) ∧
          (a.players_turn = false → p'.controller = p.controller)) ∧
        (0 < e'.stats.hp → p'.stats.hp ≤ 0 →
          (combat_input_and_turns ⟨some a, pOpt, eOpt, lg⟩ inp).active = none ∧
          p'.controller.current_animation = AnimationType.Death) ∧
        (0 < e'.stats.hp → 0 < p'.stats.hp →
          (combat_input_and_turns ⟨some a, pOpt, eOpt, lg⟩ inp).active =
            some ⟨!a.players_turn⟩)) := by
  constructor
  · intro h
    rcases h with h | h
    · subst h
      simp only [combat_input_and_turns, hproceed, Bool.not_true, Bool.false_eq_true,
        if_false, hgp, hge, Bool.or_self, if_true]
    · subst h
      cases pOpt with
      | none =>
        simp only [combat_input_and_turns, hproceed, Bool.not_true, Bool.false_eq_true,
          if_false, hgp, hge, Bool.or_self, if_true]
      | some p =>
        simp only [combat_input_and_turns, hproceed, Bool.not_true, Bool.false_eq_true,
          if_false, hgp, hge, Bool.or_self, if_true]
  · intro p e hp he
    subst hp he
    obtain ⟨P, E, CLOG, heq, hT, hF⟩ := combat_resolution_cases a p e lg inp hproceed hgp hge
    obtain ⟨p', e', h1, h2, hps, hes, hd1, hd2, hd3⟩ := checkOutcomes_cases a P E CLOG
    rw [heq]
    refine ⟨p', e', h1, h2, ?_, ?_, ?_⟩
    · intro hhp
      rw [hes] at hhp
      obtain ⟨hact, hdeath, hctrl⟩ := hd1 hhp
      refine ⟨hact, hdeath, ?_, ?_⟩
      · intro ht
        obtain ⟨hP, _, _⟩ := hT ht
        rw [hctrl, hP]
        rfl
      · intro hf
        obtain ⟨_, hPor, _⟩ := hF hf
        rcases hPor with hP | ⟨dmg, _, hP⟩
        · rw [hctrl, hP]
        · rw [hctrl, hP]
    · intro hhe hhp
      rw [hes] at hhe
      rw [hps] at hhp
      obtain ⟨hact, hdeath, _⟩ := hd2 hhe hhp
      exact ⟨hact, hdeath⟩
    · intro hhe hhp
      rw [hes] at hhe
      rw [hps] at hhp
      exact (hd3 hhe hhp).1

/-- Witness for C4: both conjuncts at concrete inputs — a failed enemy
lookup force-closes the session, and a resolved advance yields the
exactly-one-outcome shape. -/
theorem claimC4_witness :
    (combat_input_and_turns ⟨some ⟨true⟩, some examplePlayer, none, exampleLog⟩
        ⟨true, 1, 1⟩ = ⟨none, some examplePlayer, none, exampleLog⟩) ∧
    (∃ p' e',
      (combat_input_and_turns ⟨some ⟨true⟩, some examplePlayer, some exampleEnemy, exampleLog⟩
          ⟨true, 1, 1⟩).player = some p' ∧
      (combat_input_and_turns ⟨some ⟨true⟩, some examplePlayer, some exampleEnemy, exampleLog⟩
          ⟨true, 1, 1⟩).enemy = some e' ∧
      (e'.stats.hp ≤ 0 →
        (combat_input_and_turns ⟨some ⟨true⟩, some examplePlayer, some exampleEnemy, exampleLog⟩
            ⟨true, 1, 1⟩).active = none ∧
        e'.controller.current_animation = AnimationType.Death ∧
        ((⟨true⟩ : ActiveCombat).players_turn = true →
          p'.controller.current_animation = AnimationType.Attack) ∧
        ((⟨true⟩ : ActiveCombat).players_turn = false →
          p'.controller = examplePlayer.controller)) ∧
      (0 < e'.stats.hp → p'.stats.hp ≤ 0 →
        (combat_input_and_turns ⟨some ⟨true⟩, some examplePlayer, some exampleEnemy, exampleLog⟩
            ⟨true, 1, 1⟩).active = none ∧
        p'.controller.current_animation = AnimationType.Death) ∧
      (0 < e'.stats.hp → 0 < p'.stats.hp →
        (combat_input_and_turns ⟨some ⟨true⟩, some examplePlayer, some exampleEnemy, exampleLog⟩
            ⟨true, 1, 1⟩).active = some ⟨!(⟨true⟩ : ActiveCombat).players_turn⟩)) :=
  ⟨(claimC4_advance_invariant ⟨true⟩ (some examplePlayer) none exampleLog
      ⟨true, 1, 1⟩ rfl rfl rfl).1 (Or.inr rfl),
   (claimC4_advance_invariant ⟨true⟩ (some examplePlayer) (some exampleEnemy) exampleLog
      ⟨true, 1, 1⟩ rfl rfl rfl).2 examplePlayer exampleEnemy rfl rfl⟩

/-- Claim C10: one successful turn resolution mutates, among the
`CombatStats` fields of the two combatants, at most the defender's hp: the
attacker's entire `CombatStats` and the defender's `max_hp`, `attack`,
`defense`, `crit_chance` and `evade_chance` are unchanged, and on a miss
neither combatant's `CombatStats` change at all. -/
theorem claimC10_frame_effect (a : ActiveCombat) (p e : Actor) (lg : CombatLog)
    (inp : CombatInput)
    (hproceed : inp.proceed = true)
    (hgp : attackInProgress (some p) = false)
    (hge : attackInProgress (some e) = false) :
    ∃ p' e',
      (combat_input_and_turns ⟨some a, some p, some e, lg⟩ inp).player = some p' ∧
      (combat_input_and_turns ⟨some a, some p, some e, lg⟩ inp).enemy = some e' ∧
      (a.players_turn = true →
        p'.stats = p.stats ∧
        e'.stats.max_hp = e.stats.max_hp ∧
        e'.stats.attack = e.stats.attack ∧
        e'.stats.defense = e.stats.defense ∧
        e'.stats.crit_chance = e.stats.crit_chance ∧
        e'.stats.evade_chance = e.stats.evade_chance ∧
        (¬ inp.r1 < rustClamp (85/100 - e.stats.evade_chance) (1/10) (95/100) →
          p'.stats = p.stats ∧ e'.stats = e.stats)) ∧
      (a.players_turn = false →
        e'.stats = e.stats ∧
        p'.stats.max_hp = p.stats.max_hp ∧
        p'.stats.attack = p.stats.attack ∧
        p'.stats.defense = p.stats.defense ∧
        p'.stats.crit_chance = p.stats.crit_chance ∧
        p'.stats.evade_chance = p.stats.evade_chance ∧
        (¬ inp.r1 < rustClamp (75/100 - p.stats.evade_chance) (1/10) (95/100) →
          p'.stats = p.stats ∧ e'.stats = e.stats)) := by
  obtain ⟨P, E, CLOG, heq, hT, hF⟩ := combat_resolution_cases a p e lg inp hproceed hgp hge
  obtain ⟨p', e', h1, h2, hps, hes, _, _, _⟩ := checkOutcomes_cases a P E CLOG
  rw [heq]
  refine ⟨p', e', h1, h2, ?_, ?_⟩
  · intro ht
    obtain ⟨hP, hEor, hmiss⟩ := hT ht
    have hPstats : p'.stats = p.stats := by rw [hps, hP]; rfl
    refine ⟨hPstats, ?_, ?_, ?_, ?_, ?_,
      fun hm => ⟨hPstats, by rw [hes, hmiss hm]⟩⟩ <;>
      (rcases hEor with hE | ⟨dmg, hdmg, hE⟩ <;> rw [hes, hE])
  · intro hf
    obtain ⟨hE, hPor, hmiss⟩ := hF hf
    have hEstats : e'.stats = e.stats := by rw [hes, hE]; rfl
    refine ⟨hEstats, ?_, ?_, ?_, ?_, ?_,
      fun hm => ⟨by rw [hps, hmiss hm], hEstats⟩⟩ <;>
      (rcases hPor with hP | ⟨dmg, hdmg, hP⟩ <;> rw [hps, hP])

/-- Witness for C10: the frame-effect shape at a concrete resolved advance
(player's turn, miss roll r1 = 1). -/
theorem claimC10_witness :
    ∃ p' e',
      (combat_input_and_turns ⟨some ⟨true⟩, some examplePlayer, some exampleEnemy, exampleLog⟩
          ⟨true, 1, 1⟩).player = some p' ∧
      (combat_input_and_turns ⟨some ⟨true⟩, some examplePlayer, some exampleEnemy, exampleLog⟩
          ⟨true, 1, 1⟩).enemy = some e' ∧
      ((⟨true⟩ : ActiveCombat).players_turn = true →
        p'.stats = examplePlayer.stats ∧
        e'.stats.max_hp = exampleEnemy.stats.max_hp ∧
        e'.stats.attack = exampleEnemy.stats.attack ∧
        e'.stats.defense = exampleEnemy.stats.defense ∧
        e'.stats.crit_chance = exampleEnemy.stats.crit_chance ∧
        e'.stats.evade_chance = exampleEnemy.stats.evade_chance ∧
        (¬ (1 : ℚ) < rustClamp (85/100 - exampleEnemy.stats.evade_chance) (1/10) (95/100) →
          p'.stats = examplePlayer.stats ∧ e'.stats = exampleEnemy.stats)) ∧
      ((⟨true⟩ : ActiveCombat).players_turn = false →
        e'.stats = exampleEnemy.stats ∧
        p'.stats.max_hp = examplePlayer.stats.max_hp ∧
        p'.stats.attack = examplePlayer.stats.attack ∧
        p'.stats.defense = examplePlayer.stats.defense ∧
        p'.stats.crit_chance = examplePlayer.stats.crit_chance ∧
        p'.stats.evade_chance = examplePlayer.stats.evade_chance ∧
        (¬ (1 : ℚ) < rustClamp (75/100 - examplePlayer.stats.evade_chance) (1/10) (95/100) →
          p'.stats = examplePlayer.stats ∧ e'.stats = exampleEnemy.stats)) :=
  claimC10_frame_effect ⟨true⟩ examplePlayer exampleEnemy exampleLog ⟨true, 1, 1⟩ rfl rfl rfl

theorem stepsFor_eq_spec {tile : ℚ} (htile : 0 < tile) (delta : ℚ × ℚ) :
    stepsFor tile delta = spec_substep_count tile delta := by
  unfold stepsFor spec_substep_count
  by_cases h : max |delta.1| |delta.2| > 0
  · rw [if_pos h]
    have hms : (0 : ℚ) < tile * (20/100) := by positivity
    have hpos : 0 < max |delta.1| |delta.2| / (tile * (20/100)) := div_pos h hms
    have hceil : 1 ≤ ⌈max |delta.1| |delta.2| / (tile * (20/100))⌉ := Int.ceil_pos.mpr hpos
    generalize ⌈max |delta.1| |delta.2| / (tile * (20/100))⌉ = c at hceil ⊢
    omega
  · rw [if_neg h]
    have h0 : max |delta.1| |delta.2| = 0 :=
      le_antisymm (not_lt.mp h) (le_max_iff.mpr (Or.inl (abs_nonneg _)))
    rw [h0]
    norm_num

theorem moveSubStep_eq_spec (tile : ℚ) (s w : List (ℚ × ℚ)) (step pos : ℚ × ℚ) :
    moveSubStep tile s w step pos = spec_substep tile s w step pos := by
  have ex : ∀ p : ℚ × ℚ,
      (if step.1 ≠ 0 then
        (if !would_collide_point tile (p.1 + step.1, p.2) s w then (p.1 + step.1, p.2) else p)
       else p) =
      (if would_collide_point tile (p.1 + step.1, p.2) s w then p else (p.1 + step.1, p.2)) := by
    intro p
    by_cases hx : step.1 = 0
    · have hcand : (p.1 + step.1, p.2) = p := by rw [hx, add_zero]
      rw [if_neg (fun h => h hx), hcand, ite_self]
    · rw [if_pos hx]
      cases hb : would_collide_point tile (p.1 + step.1, p.2) s w
      · simp [hb]
      · simp [hb]
  have ey : ∀ p : ℚ × ℚ,
      (if step.2 ≠ 0 then
        (if !would_collide_point tile (p.1, p.2 + step.2) s w then (p.1, p.2 + step.2) else p)
       else p) =
      (if would_collide_point tile (p.1, p.2 + step.2) s w then p else (p.1, p.2 + step.2)) := by
    intro p
    by_cases hy : step.2 = 0
    · have hcand : (p.1, p.2 + step.2) = p := by rw [hy, add_zero]
      rw [if_neg (fun h => h hy), hcand, ite_self]
    · rw [if_pos hy]
      cases hb : would_collide_point tile (p.1, p.2 + step.2) s w
      · simp [hb]
      · simp [hb]
  show (fun p => if step.2 ≠ 0 then
        (if !would_collide_point tile (p.1, p.2 + step.2) s w then (p.1, p.2 + step.2) else p)
       else p)
      ((fun p => if step.1 ≠ 0 then
        (if !would_collide_point tile (p.1 + step.1, p.2) s w then (p.1 + step.1, p.2) else p)
       else p) pos) =
    (fun p => if would_collide_point tile (p.1, p.2 + step.2) s w then p
      else (p.1, p.2 + step.2))
      ((fun p => if would_collide_point tile (p.1 + step.1, p.2) s w then p
        else (p.1 + step.1, p.2)) pos)
  simp only []
  rw [ex pos, ey _]

theorem movePlayerFromDelta_eq_spec {tile : ℚ} (htile : 0 < tile)
    (s w : List (ℚ × ℚ)) (delta start : ℚ × ℚ) :
    movePlayerFromDelta tile s w delta start = spec_resolve tile s w delta start := by
  unfold movePlayerFromDelta spec_resolve
  rw [stepsFor_eq_spec htile delta]
  exact congrFun
    (congrArg (fun f => f^[spec_substep_count tile delta])
      (funext (moveSubStep_eq_spec tile s w _))) start

/-- Claim C5: for every nonzero input direction (and movement not otherwise
suppressed), `move_player` computes the intended displacement as the
normalized direction times speed times delta-time and resolves it exactly as
the spec's description: `n = clamp(ceil(max(|dx|,|dy|) / (tile×0.20)), 1, 8)`
equal sub-steps, each attempting the X-axis move first and then the Y-axis
move independently, skipping (with no bounce-back) any axis whose candidate
point collides.  `normDir` stands for `direction.normalize()` (see
`move_player`). -/
theorem claimC5_substep_resolution (tile : ℚ) (keys : MoveKeys) (normDir : ℚ × ℚ)
    (dt : ℚ) (solids waters : List (ℚ × ℚ)) (pv : MovePlayerView)
    (htile : 0 < tile)
    (hdeath : pv.controller.current_animation ≠ AnimationType.Death)
    (hdir : read_movement_input keys ≠ (0, 0)) :
    (move_player tile false GameOutcome.None keys normDir dt solids waters pv).translation =
      spec_resolve tile solids waters
        (normDir.1 * calculate_movement_speed pv.config keys.shift * dt,
         normDir.2 * calculate_movement_speed pv.config keys.shift * dt) pv.translation := by
  simp only [move_player]
  rw [if_neg hdeath]
  rw [if_neg (by decide : ¬ ((false || !decide True) = true))]
  rw [if_pos hdir]
  rw [apply_ite MovePlayerView.translation]
  simp only [ite_self]
  exact movePlayerFromDelta_eq_spec htile solids waters _ _

/-- Witness for C5: pressing only right-arrow (direction (1,0), normalized
(1,0)) at tile size 32 resolves through the claimed sub-step description. -/
theorem claimC5_witness :
    (0 : ℚ) < 32 ∧
    exampleMoveView.controller.current_animation ≠ AnimationType.Death ∧
    read_movement_input exampleKeysRight ≠ (0, 0) ∧
    (move_player 32 false GameOutcome.None exampleKeysRight (1, 0) 1 [(40, 0)] []
        exampleMoveView).translation =
      spec_resolve 32 [(40, 0)] []
        ((1 : ℚ) * calculate_movement_speed exampleMoveView.config exampleKeysRight.shift * 1,
         (0 : ℚ) * calculate_movement_speed exampleMoveView.config exampleKeysRight.shift * 1)
        exampleMoveView.translation :=
  have h1 : (0 : ℚ) < 32 := by norm_num
  have h2 : exampleMoveView.controller.current_animation ≠ AnimationType.Death := by
    simp [exampleMoveView]
  have h3 : read_movement_input exampleKeysRight ≠ (0, 0) := by
    simp [read_movement_input, exampleKeysRight]
  ⟨h1, h2, h3,
   claimC5_substep_resolution 32 exampleKeysRight (1, 0) 1 [(40, 0)] [] exampleMoveView
     h1 h2 h3⟩

theorem moveSubStep_preserves (tile : ℚ) (s w : List (ℚ × ℚ)) (step : ℚ × ℚ)
    {pos : ℚ × ℚ} (h : would_collide_point tile pos s w = false) :
    would_collide_point tile (moveSubStep tile s w step pos) s w = false := by
  have hx : ∀ q : ℚ × ℚ, would_collide_point tile q s w = false →
      would_collide_point tile
        (if step.1 ≠ 0 then
          (if !would_collide_point tile (q.1 + step.1, q.2) s w then (q.1 + step.1, q.2) else q)
         else q) s w = false := by
    intro q hq
    split_ifs with h1 h2
    · simpa using h2
    · exact hq
    · exact hq
  have hy : ∀ q : ℚ × ℚ, would_collide_point tile q s w = false →
      would_collide_point tile
        (if step.2 ≠ 0 then
          (if !would_collide_point tile (q.1, q.2 + step.2) s w then (q.1, q.2 + step.2) else q)
         else q) s w = false := by
    intro q hq
    split_ifs with h1 h2
    · simpa using h2
    · exact hq
    · exact hq
  exact hy _ (hx _ h)

theorem moveSubStep_iterate_preserves (tile : ℚ) (s w : List (ℚ × ℚ)) (step : ℚ × ℚ)
    (n : ℕ) : ∀ {start : ℚ × ℚ}, would_collide_point tile start s w = false →
    would_collide_point tile ((moveSubStep tile s w step)^[n] start) s w = false := by
  induction n with
  | zero =>
    intro start h
    simpa using h
  | succ k ih =>
    intro start h
    rw [Function.iterate_succ_apply]
    exact ih (moveSubStep_preserves tile s w step h)

theorem movePlayerFromDelta_preserves (tile : ℚ) (s w : List (ℚ × ℚ)) (delta : ℚ × ℚ)
    {start : ℚ × ℚ} (h : would_collide_point tile start s w = false) :
    would_collide_point tile (movePlayerFromDelta tile s w delta start) s w = false := by
  unfold movePlayerFromDelta
  exact moveSubStep_iterate_preserves tile s w _ _ h

/-- Claim C6: (i) a point passes `would_collide_point` exactly when it is
neither within the inclusive blocking half-extent (Chebyshev distance ≤
0.5×tile) of any blocking tile's center nor strictly within the water
half-extent (0.48×tile) of any water tile's center; (ii) consequently, if
the player's starting position satisfies this non-collision predicate, the
position written by `move_player` satisfies it too. -/
theorem claimC6_no_collision (tile : ℚ) (solids waters : List (ℚ × ℚ)) :
    (∀ p : ℚ × ℚ, would_collide_point tile p solids waters = false ↔
      ((∀ c ∈ solids, ¬ max |p.1 - c.1| |p.2 - c.2| ≤ nonwalkable_half_extent tile) ∧
       (∀ c ∈ waters, ¬ max |p.1 - c.1| |p.2 - c.2| < water_half_extent tile))) ∧
    (∀ (combatActive : Bool) (outcome : GameOutcome) (keys : MoveKeys)
        (normDir : ℚ × ℚ) (dt : ℚ) (pv : MovePlayerView),
      would_collide_point tile pv.translation solids waters = false →
      would_collide_point tile
        (move_player tile combatActive outcome keys normDir dt solids waters pv).translation
        solids waters = false) := by
  constructor
  · intro p
    simp [would_collide_point, List.any_eq_false, max_le_iff, max_lt_iff, not_and_or, not_or]
  · intro combatActive outcome keys normDir dt pv h
    simp only [move_player, apply_ite MovePlayerView.translation]
    generalize hq : movePlayerFromDelta tile solids waters
        (normDir.1 * calculate_movement_speed pv.config keys.shift * dt,
         normDir.2 * calculate_movement_speed pv.config keys.shift * dt) pv.translation = q
    have hqok : would_collide_point tile q solids waters = false := by
      rw [← hq]
      exact movePlayerFromDelta_preserves tile solids waters _ h
    split_ifs <;> first | exact hqok | exact h

/-- Witness for C6: from the non-colliding start (0,0), a rightward tick at
tile 32 with a blocking tile at (40,0) and water at (100,100) writes only
non-colliding positions. -/
theorem claimC6_witness :
    would_collide_point 32 exampleMoveView.translation [(40, 0)] [(100, 100)] = false ∧
    would_collide_point 32
      (move_player 32 false GameOutcome.None exampleKeysRight (1, 0) 1 [(40, 0)] [(100, 100)]
        exampleMoveView).translation [(40, 0)] [(100, 100)] = false :=
  have h : would_collide_point 32 exampleMoveView.translation [(40, 0)] [(100, 100)] = false := by
    norm_num [would_collide_point, nonwalkable_half_extent, water_half_extent, exampleMoveView]
  ⟨h, (claimC6_no_collision 32 [(40, 0)] [(100, 100)]).2 false GameOutcome.None
    exampleKeysRight (1, 0) 1 exampleMoveView h⟩

theorem cleanupOne_cases (a : Actor) (t : EnemyTracker) (o : GameOutcome) :
    (cleanupOne a t o).2.1.alive ≤ t.alive ∧
    ((cleanupOne a t o).2.2 = o ∨
      ((cleanupOne a t o).2.2 = GameOutcome.GameWon ∧ (cleanupOne a t o).2.1.alive = 0)) := by
  cases hanim : a.controller.current_animation
  case Death =>
    cases hatl : a.atlasIndex
    · simp [cleanupOne, hanim, hatl]
    · cases hdef : a.config.animations AnimationType.Death
      · simp [cleanupOne, hanim, hatl, hdef]
      · rename_i idx def_
        by_cases hc : (AnimationClip.new def_.start_row def_.frame_count
            a.config.atlas_columns).is_complete idx a.timerFinished = true
        · simp only [cleanupOne, hanim, hatl, hdef, hc, if_true]
          split_ifs with h1 h2 h3 <;> simp <;> omega
        · simp [cleanupOne, hanim, hatl, hdef, hc]
  all_goals simp [cleanupOne, hanim]

theorem cleanup_fold_cases :
    ∀ (es : List Actor) (t : EnemyTracker) (o : GameOutcome),
    (handle_enemy_death_cleanup es t o).2.1.alive ≤ t.alive ∧
    ((handle_enemy_death_cleanup es t o).2.2 = o ∨
      ((handle_enemy_death_cleanup es t o).2.2 = GameOutcome.GameWon ∧
       (handle_enemy_death_cleanup es t o).2.1.alive = 0))
  | [], t, o => by simp [handle_enemy_death_cleanup]
  | a :: rest, t, o => by
    obtain ⟨h1, h2⟩ := cleanupOne_cases a t o
    obtain ⟨ih1, ih2⟩ := cleanup_fold_cases rest (cleanupOne a t o).2.1 (cleanupOne a t o).2.2
    simp only [handle_enemy_death_cleanup]
    constructor
    · exact le_trans ih1 h1
    · rcases ih2 with ih2 | ⟨ihw, iha⟩
      · rcases h2 with h2 | ⟨hw, ha⟩
        · exact Or.inl (by rw [ih2, h2])
        · exact Or.inr ⟨by rw [ih2, hw], by omega⟩
      · exact Or.inr ⟨ihw, iha⟩

theorem cleanupOne_keep (a : Actor) (t : EnemyTracker) (o : GameOutcome)
    (h : (cleanupOne a t o).1 = false) : cleanupOne a t o = (false, t, o) := by
  cases hanim : a.controller.current_animation
  case Death =>
    cases hatl : a.atlasIndex
    · simp [cleanupOne, hanim, hatl]
    · cases hdef : a.config.animations AnimationType.Death
      · simp [cleanupOne, hanim, hatl, hdef]
      · rename_i idx def_
        by_cases hc : (AnimationClip.new def_.start_row def_.frame_count
            a.config.atlas_columns).is_complete idx a.timerFinished = true
        · simp [cleanupOne, hanim, hatl, hdef, hc] at h
        · simp [cleanupOne, hanim, hatl, hdef, hc]
  all_goals simp [cleanupOne, hanim]

theorem cleanupOne_despawn_won (a : Actor) (t : EnemyTracker) (o : GameOutcome)
    (h1 : (cleanupOne a t o).1 = true)
    (h2 : (cleanupOne a t o).2.1.alive = 0) :
    (cleanupOne a t o).2.2 = GameOutcome.GameWon := by
  cases hanim : a.controller.current_animation
  case Death =>
    cases hatl : a.atlasIndex
    · simp [cleanupOne, hanim, hatl] at h1
    · cases hdef : a.config.animations AnimationType.Death
      · simp [cleanupOne, hanim, hatl, hdef] at h1
      · rename_i idx def_
        by_cases hc : (AnimationClip.new def_.start_row def_.frame_count
            a.config.atlas_columns).is_complete idx a.timerFinished = true
        · simp [cleanupOne, hanim, hatl, hdef, hc] at h2
          simp [cleanupOne, hanim, hatl, hdef, hc, h2]
        · simp [cleanupOne, hanim, hatl, hdef, hc] at h1
  all_goals simp [cleanupOne, hanim] at h1

theorem cleanup_length_le :
    ∀ (es : List Actor) (t : EnemyTracker) (o : GameOutcome),
    (handle_enemy_death_cleanup es t o).1.length ≤ es.length
  | [], _, _ => by simp [handle_enemy_death_cleanup]
  | a :: rest, t, o => by
    simp only [handle_enemy_death_cleanup, List.length_cons]
    have ih := cleanup_length_le rest (cleanupOne a t o).2.1 (cleanupOne a t o).2.2
    by_cases hd : (cleanupOne a t o).1 = true
    · rw [if_pos hd]
      omega
    · rw [if_neg hd]
      simp only [List.length_cons]
      omega

theorem cleanup_nodespawn_id :
    ∀ (es : List Actor) (t : EnemyTracker) (o : GameOutcome),
    (handle_enemy_death_cleanup es t o).1.length = es.length →
    (handle_enemy_death_cleanup es t o).2.1 = t ∧ (handle_enemy_death_cleanup es t o).2.2 = o
  | [], t, o => by simp [handle_enemy_death_cleanup]
  | a :: rest, t, o => by
    simp only [handle_enemy_death_cleanup, List.length_cons]
    by_cases hd : (cleanupOne a t o).1 = true
    · rw [if_pos hd]
      intro hlen
      have hle := cleanup_length_le rest (cleanupOne a t o).2.1 (cleanupOne a t o).2.2
      omega
    · have hfalse : (cleanupOne a t o).1 = false := by
        revert hd
        cases (cleanupOne a t o).1 <;> simp
      rw [if_neg hd, cleanupOne_keep a t o hfalse]
      simp only [List.length_cons]
      intro hlen
      exact cleanup_nodespawn_id rest t o (by omega)

theorem cleanup_won_of_despawn_zero :
    ∀ (es : List Actor) (t : EnemyTracker) (o : GameOutcome),
    (handle_enemy_death_cleanup es t o).2.1.alive = 0 →
    (handle_enemy_death_cleanup es t o).1.length < es.length →
    (handle_enemy_death_cleanup es t o).2.2 = GameOutcome.GameWon
  | [], t, o => by simp [handle_enemy_death_cleanup]
  | a :: rest, t, o => by
    simp only [handle_enemy_death_cleanup, List.length_cons]
    by_cases hd : (cleanupOne a t o).1 = true
    · rw [if_pos hd]
      intro halive hlen
      by_cases hz : (cleanupOne a t o).2.1.alive = 0
      · have hwon := cleanupOne_despawn_won a t o hd hz
        rcases (cleanup_fold_cases rest (cleanupOne a t o).2.1 (cleanupOne a t o).2.2).2 with
          h | ⟨h, _⟩
        · rw [h, hwon]
        · exact h
      · by_cases hlen2 : (handle_enemy_death_cleanup rest (cleanupOne a t o).2.1
            (cleanupOne a t o).2.2).1.length = rest.length
        · obtain ⟨hid1, _⟩ := cleanup_nodespawn_id rest _ _ hlen2
          rw [hid1] at halive
          exact absurd halive hz
        · have hle := cleanup_length_le rest (cleanupOne a t o).2.1 (cleanupOne a t o).2.2
          exact cleanup_won_of_despawn_zero rest _ _ halive (by omega)
    · have hfalse : (cleanupOne a t o).1 = false := by
        revert hd
        cases (cleanupOne a t o).1 <;> simp
      rw [if_neg hd, cleanupOne_keep a t o hfalse]
      simp only [List.length_cons]
      intro halive hlen
      exact cleanup_won_of_despawn_zero rest t o halive (by omega)

/-- Counterexample for C7: the claim says the outcome becomes `Won` only
from `Ongoing` and that `Lost`/`Won` are final until restart; but
`handle_enemy_death_cleanup` sets `GameWon` with no guard on the current
outcome — here it overwrites a `GameOver` (Lost) outcome when the last
enemy's death animation completes. -/
theorem claimC7_counterexample :
    (handle_enemy_death_cleanup [exampleDyingEnemy] ⟨true, 1⟩ GameOutcome.GameOver).2.2 =
      GameOutcome.GameWon := rfl

/-- Claim C7 (amended): `handle_player_death_outcome` changes the outcome
only from `Ongoing`, only to `Lost`, and only when the player's selected
animation is `Death` with an existing clip whose completion test holds —
and conversely it does set `Lost` from `Ongoing` in exactly that situation;
`handle_enemy_death_cleanup` changes the outcome only to `Won` and only
when the alive count has reached 0, and whenever a death-animation-complete
despawn leaves the alive count at 0 the outcome IS set to `Won` — regardless
of the current outcome, so a `Lost` outcome can still be overwritten to
`Won` (the one-way-latch part of the claim fails, see the
counterexample). -/
theorem claimC7_outcome_latch :
    (∀ (o : GameOutcome) (p : Option Actor),
      handle_player_death_outcome o p ≠ o →
      o = GameOutcome.None ∧
      handle_player_death_outcome o p = GameOutcome.GameOver ∧
      ∃ pv idx def_, p = some pv ∧
        pv.controller.current_animation = AnimationType.Death ∧
        pv.atlasIndex = some idx ∧
        pv.config.animations AnimationType.Death = some def_ ∧
        (AnimationClip.new def_.start_row def_.frame_count
          pv.config.atlas_columns).is_complete idx pv.timerFinished = true) ∧
    (∀ (pv : Actor) (idx : Nat) (def_ : AnimationDefinition),
      pv.controller.current_animation = AnimationType.Death →
      pv.atlasIndex = some idx →
      pv.config.animations AnimationType.Death = some def_ →
      (AnimationClip.new def_.start_row def_.frame_count
        pv.config.atlas_columns).is_complete idx pv.timerFinished = true →
      handle_player_death_outcome GameOutcome.None (some pv) = GameOutcome.GameOver) ∧
    (∀ (es : List Actor) (t : EnemyTracker) (o : GameOutcome),
      (handle_enemy_death_cleanup es t o).2.2 ≠ o →
      (handle_enemy_death_cleanup es t o).2.2 = GameOutcome.GameWon ∧
      (handle_enemy_death_cleanup es t o).2.1.alive = 0) ∧
    (∀ (es : List Actor) (t : EnemyTracker) (o : GameOutcome),
      (handle_enemy_death_cleanup es t o).2.1.alive = 0 →
      (handle_enemy_death_cleanup es t o).1.length < es.length →
      (handle_enemy_death_cleanup es t o).2.2 = GameOutcome.GameWon) := by
  refine ⟨?_, ?_, ?_, cleanup_won_of_despawn_zero⟩
  · intro o p hne
    cases o
    case GameOver => exact absurd rfl hne
    case GameWon => exact absurd rfl hne
    case None =>
      cases p
      case none => exact absurd rfl hne
      case some pv =>
        cases hanim : pv.controller.current_animation
        case Death =>
          cases hatl : pv.atlasIndex
          · rw [show handle_player_death_outcome GameOutcome.None (some pv) =
                GameOutcome.None by simp [handle_player_death_outcome, hanim, hatl]] at hne
            exact absurd rfl hne
          · rename_i idx
            cases hdef : pv.config.animations AnimationType.Death
            · rw [show handle_player_death_outcome GameOutcome.None (some pv) =
                  GameOutcome.None by
                simp [handle_player_death_outcome, hanim, hatl, hdef]] at hne
              exact absurd rfl hne
            · rename_i def_
              by_cases hc : (AnimationClip.new def_.start_row def_.frame_count
                  pv.config.atlas_columns).is_complete idx pv.timerFinished = true
              · exact ⟨rfl, by simp [handle_player_death_outcome, hanim, hatl, hdef, hc],
                  pv, idx, def_, rfl, hanim, hatl, hdef, hc⟩
              · rw [show handle_player_death_outcome GameOutcome.None (some pv) =
                    GameOutcome.None by
                  simp [handle_player_death_outcome, hanim, hatl, hdef, hc]] at hne
                exact absurd rfl hne
        all_goals
          rw [show handle_player_death_outcome GameOutcome.None (some pv) =
              GameOutcome.None by simp [handle_player_death_outcome, hanim]] at hne
        all_goals exact absurd rfl hne
  · intro pv idx def_ hanim hatl hdef hc
    simp [handle_player_death_outcome, hanim, hatl, hdef, hc]
  · intro es t o hne
    rcases (cleanup_fold_cases es t o).2 with h | ⟨hw, ha⟩
    · exact absurd h hne
    · exact ⟨hw, ha⟩

/-- Witness for the amended C7: a completed player death flips `Ongoing`
to `Lost` (both directions exercised); a completed last-enemy death sets
`Won` with the alive count at 0 from `Ongoing`, and also from `Lost`
(the regardless-of-outcome direction). -/
theorem claimC7_witness :
    (GameOutcome.None = GameOutcome.None ∧
     handle_player_death_outcome GameOutcome.None (some exampleDyingEnemy) =
       GameOutcome.GameOver ∧
     ∃ pv idx def_, (some exampleDyingEnemy : Option Actor) = some pv ∧
       pv.controller.current_animation = AnimationType.Death ∧
       pv.atlasIndex = some idx ∧
       pv.config.animations AnimationType.Death = some def_ ∧
       (AnimationClip.new def_.start_row def_.frame_count
         pv.config.atlas_columns).is_complete idx pv.timerFinished = true) ∧
    handle_player_death_outcome GameOutcome.None (some exampleDyingEnemy) =
      GameOutcome.GameOver ∧
    ((handle_enemy_death_cleanup [exampleDyingEnemy] ⟨true, 1⟩ GameOutcome.None).2.2 =
       GameOutcome.GameWon ∧
     (handle_enemy_death_cleanup [exampleDyingEnemy] ⟨true, 1⟩ GameOutcome.None).2.1.alive
       = 0) ∧
    (handle_enemy_death_cleanup [exampleDyingEnemy] ⟨true, 1⟩ GameOutcome.GameOver).2.2 =
      GameOutcome.GameWon :=
  ⟨claimC7_outcome_latch.1 GameOutcome.None (some exampleDyingEnemy) (by decide),
   claimC7_outcome_latch.2.1 exampleDyingEnemy 3 ⟨0, 4, 1/10, false⟩ rfl rfl rfl rfl,
   claimC7_outcome_latch.2.2.1 [exampleDyingEnemy] ⟨true, 1⟩ GameOutcome.None (by decide),
   claimC7_outcome_latch.2.2.2 [exampleDyingEnemy] ⟨true, 1⟩ GameOutcome.GameOver
     (by decide) (by decide)⟩

/-- Counterexample for C8: the claim says the restart clears both the jump
and moving flags, but `handle_restart_input` only clears `is_moving` — a
player who was mid-jump keeps `is_jumping = true` after the restart. -/
theorem claimC8_counterexample :
    ((handle_restart_input true exampleRestartWorld).player.map
      fun p => p.astate.is_jumping) = some true := rfl

/-- Claim C8 (amended): on the restart key edge, regardless of the current
outcome: the session is cleared, all enemies despawned, the enemy tracker
reset to unspawned/0, the player's hp restored to `max_hp`, its position set
to the origin, its animation set to `Walk` and its moving flag cleared (the
jump flag is left unchanged — the source does not touch `is_jumping`), all
health pickups despawned with their tracker reset, and the outcome set back
to `Ongoing`. -/
theorem claimC8_restart_reset (w : RestartWorld) (p : PlayerRestartView)
    (hp : w.player = some p) :
    handle_restart_input true w =
      { active := none, outcome := GameOutcome.None,
        tracker := { spawned := false, alive := 0 }, enemies := [],
        player := some
          { stats := { p.stats with hp := p.stats.max_hp }, translation := (0, 0),
            controller := { p.controller with current_animation := AnimationType.Walk },
            astate := { p.astate with is_moving := false } },
        pips := [], pipTracker := { spawned := false } } := by
  simp [handle_restart_input, hp]

/-- Witness for the amended C8: the reset shape at the concrete `Lost`
world. -/
theorem claimC8_witness :
    handle_restart_input true exampleRestartWorld =
      { active := none, outcome := GameOutcome.None,
        tracker := { spawned := false, alive := 0 }, enemies := [],
        player := some
          { stats := { examplePlayerRestart.stats with
              hp := examplePlayerRestart.stats.max_hp },
            translation := (0, 0),
            controller := { examplePlayerRestart.controller with
              current_animation := AnimationType.Walk },
            astate := { examplePlayerRestart.astate with is_moving := false } },
        pips := [], pipTracker := { spawned := false } } :=
  claimC8_restart_reset exampleRestartWorld examplePlayerRestart rfl

theorem collectLoop_bounds (radius : ℚ) (playerPos : ℚ × ℚ) :
    ∀ (pips : List (ℚ × ℚ)) (stats : CombatStats),
    (collectLoop radius playerPos pips stats).1.max_hp = stats.max_hp ∧
    (stats.hp ≤ stats.max_hp →
      (collectLoop radius playerPos pips stats).1.hp ≤ stats.max_hp ∧
      stats.hp ≤ (collectLoop radius playerPos pips stats).1.hp)
  | [], stats => by simp [collectLoop]
  | pip :: rest, stats => by
    by_cases hd : (pip.1 - playerPos.1) ^ 2 + (pip.2 - playerPos.2) ^ 2 ≤ radius ^ 2
    · have hstep := collectLoop_bounds radius playerPos rest
        { stats with hp := min (stats.hp +
            max (rustRound ((stats.max_hp : ℚ) * PIP_HEAL_PERCENT)) 1) stats.max_hp }
      simp only [collectLoop, if_pos hd]
      refine ⟨hstep.1, ?_⟩
      intro hle
      have hheal : (0 : ℤ) ≤ max (rustRound ((stats.max_hp : ℚ) * PIP_HEAL_PERCENT)) 1 := by
        have := le_max_right (rustRound ((stats.max_hp : ℚ) * PIP_HEAL_PERCENT)) 1
        omega
      have hhp : min (stats.hp + max (rustRound ((stats.max_hp : ℚ) * PIP_HEAL_PERCENT)) 1)
          stats.max_hp ≤ stats.max_hp := min_le_right _ _
      obtain ⟨h1, h2⟩ := hstep.2 hhp
      refine ⟨by rw [← hstep.1] at h1 ⊢; exact h1, ?_⟩
      have : stats.hp ≤ min (stats.hp +
          max (rustRound ((stats.max_hp : ℚ) * PIP_HEAL_PERCENT)) 1) stats.max_hp :=
        le_min (by omega) hle
      exact le_trans this h2
    · have hstep := collectLoop_bounds radius playerPos rest stats
      simp only [collectLoop, if_neg hd]
      exact hstep

theorem cleanup_survivors :
    ∀ (es : List Actor) (t : EnemyTracker) (o : GameOutcome) (x : Actor),
    x ∈ (handle_enemy_death_cleanup es t o).1 → x ∈ es
  | [], _, _, x => by simp [handle_enemy_death_cleanup]
  | a :: rest, t, o, x => by
    simp only [handle_enemy_death_cleanup]
    intro hx
    by_cases hd : (cleanupOne a t o).1 = true
    · rw [if_pos hd] at hx
      exact List.mem_cons_of_mem a (cleanup_survivors rest _ _ x hx)
    · rw [if_neg hd] at hx
      rcases List.mem_cons.mp hx with hx | hx
      · exact hx ▸ List.mem_cons_self a rest
      · exact List.mem_cons_of_mem a (cleanup_survivors rest _ _ x hx)

/-- Claim C9 (amended): stored hp never exceeds `max_hp` — pickup collection
clamps healing to `max_hp` (and never lowers hp when hp is within bounds),
and a combat turn only ever lowers hp; but hp is NOT clamped at 0: a damage
path may drive it negative, and the negative value persists in stored state
across later ticks (the resolver no-ops on a closed session and the death
cleanup never mutates a surviving enemy's stats) until despawn or restart —
see the counterexample. -/
theorem claimC9_hp_bounds :
    (∀ (tile : ℚ) (outcome : GameOutcome) (playerPos : ℚ × ℚ) (stats : CombatStats)
        (pips : List (ℚ × ℚ)),
      (collect_health_pips tile outcome playerPos stats pips).1.max_hp = stats.max_hp ∧
      (stats.hp ≤ stats.max_hp →
        (collect_health_pips tile outcome playerPos stats pips).1.hp ≤ stats.max_hp ∧
        stats.hp ≤ (collect_health_pips tile outcome playerPos stats pips).1.hp)) ∧
    (∀ (a : ActiveCombat) (p e : Actor) (lg : CombatLog) (inp : CombatInput),
      inp.proceed = true →
      attackInProgress (some p) = false →
      attackInProgress (some e) = false →
      ∃ p' e',
        (combat_input_and_turns ⟨some a, some p, some e, lg⟩ inp).player = some p' ∧
        (combat_input_and_turns ⟨some a, some p, some e, lg⟩ inp).enemy = some e' ∧
        p'.stats.hp ≤ p.stats.hp ∧ e'.stats.hp ≤ e.stats.hp) ∧
    (∀ (w : CombatWorld) (inp : CombatInput), w.active = none →
      combat_input_and_turns w inp = w) ∧
    (∀ (es : List Actor) (t : EnemyTracker) (o : GameOutcome) (x : Actor),
      x ∈ (handle_enemy_death_cleanup es t o).1 → x ∈ es) := by
  refine ⟨?_, ?_, ?_, cleanup_survivors⟩
  · intro tile outcome playerPos stats pips
    cases outcome
    case None => exact collectLoop_bounds _ _ pips stats
    all_goals simp [collect_health_pips]
  · intro a p e lg inp hproceed hgp hge
    obtain ⟨P, E, CLOG, heq, hT, hF⟩ := combat_resolution_cases a p e lg inp hproceed hgp hge
    obtain ⟨p', e', h1, h2, hps, hes, _, _, _⟩ := checkOutcomes_cases a P E CLOG
    rw [heq]
    refine ⟨p', e', h1, h2, ?_, ?_⟩
    · cases hpt : a.players_turn
      · obtain ⟨_, hPor, _⟩ := hF hpt
        rcases hPor with hP | ⟨dmg, hdmg, hP⟩
        · rw [hps, hP]
        · rw [hps, hP]
          simp only []
          omega
      · obtain ⟨hP, _, _⟩ := hT hpt
        rw [hps, hP]
        exact le_refl _
    · cases hpt : a.players_turn
      · obtain ⟨hE, _, _⟩ := hF hpt
        rw [hes, hE]
        exact le_refl _
      · obtain ⟨_, hEor, _⟩ := hT hpt
        rcases hEor with hE | ⟨dmg, hdmg, hE⟩
        · rw [hes, hE]
        · rw [hes, hE]
          simp only []
          omega
  · intro w inp hact
    unfold combat_input_and_turns
    rw [hact]

/-- Witness for the amended C9: all four conjuncts at concrete inputs — a
pickup collected at full health keeps hp at `max_hp`, a resolved advance
only lowers hp, a closed session leaves hp alone, and a surviving enemy's
record is unchanged by the cleanup. -/
theorem claimC9_witness :
    ((collect_health_pips 32 GameOutcome.None (0, 0) examplePlayerStats [(5, 5)]).1.max_hp =
        examplePlayerStats.max_hp ∧
      ((collect_health_pips 32 GameOutcome.None (0, 0) examplePlayerStats [(5, 5)]).1.hp ≤
          examplePlayerStats.max_hp ∧
        examplePlayerStats.hp ≤
          (collect_health_pips 32 GameOutcome.None (0, 0) examplePlayerStats [(5, 5)]).1.hp)) ∧
    (∃ p' e',
      (combat_input_and_turns ⟨some ⟨true⟩, some examplePlayer, some exampleEnemy, exampleLog⟩
          ⟨true, 0, 1⟩).player = some p' ∧
      (combat_input_and_turns ⟨some ⟨true⟩, some examplePlayer, some exampleEnemy, exampleLog⟩
          ⟨true, 0, 1⟩).enemy = some e' ∧
      p'.stats.hp ≤ examplePlayer.stats.hp ∧ e'.stats.hp ≤ exampleEnemy.stats.hp) ∧
    combat_input_and_turns ⟨none, none, none, exampleLog⟩ ⟨true, 0, 1⟩ =
      ⟨none, none, none, exampleLog⟩ ∧
    exampleEnemy ∈ ([exampleEnemy] : List Actor) :=
  have hpart1 := (claimC9_hp_bounds.1 32 GameOutcome.None (0, 0) examplePlayerStats [(5, 5)])
  ⟨⟨hpart1.1, hpart1.2 (by decide)⟩,
   claimC9_hp_bounds.2.1 ⟨true⟩ examplePlayer exampleEnemy exampleLog ⟨true, 0, 1⟩ rfl rfl rfl,
   claimC9_hp_bounds.2.2.1 ⟨none, none, none, exampleLog⟩ ⟨true, 0, 1⟩ rfl,
   claimC9_hp_bounds.2.2.2 [exampleEnemy] ⟨true, 1⟩ GameOutcome.None exampleEnemy
     (List.mem_cons_self exampleEnemy [])⟩

/-- Counterexample for C9: the hit drives the enemy's stored hp to −8 (< 0),
the session closes, and the −8 persists in stored state beyond the tick that
caused the death transition: the next tick's resolver call leaves it
untouched (no session), and the death cleanup keeps the enemy — still at
−8 — while its death animation is incomplete.  Stored hp is not clamped to
`[0, max_hp]`. -/
theorem claimC9_counterexample :
    ((combat_input_and_turns exampleHitWorld ⟨true, 0, 1⟩).enemy.map fun x => x.stats.hp) =
      some (-8) ∧
    (combat_input_and_turns exampleHitWorld ⟨true, 0, 1⟩).active = none ∧
    ((combat_input_and_turns (combat_input_and_turns exampleHitWorld ⟨true, 0, 1⟩)
        ⟨true, 0, 1⟩).enemy.map fun x => x.stats.hp) = some (-8) ∧
    ((handle_enemy_death_cleanup
        (combat_input_and_turns exampleHitWorld ⟨true, 0, 1⟩).enemy.toList ⟨true, 1⟩
        GameOutcome.None).1.map fun x => x.stats.hp) = [-8] := by
  refine ⟨?_, ?_, ?_, ?_⟩ <;>
    norm_num [combat_input_and_turns, checkOutcomes, attackInProgress,
      AnimationController.get_clip, Actor.setDeathAnim, Actor.setAttackAnim,
      rustClamp, rustRound, PLAYER_DAMAGE_MULTIPLIER, handle_enemy_death_cleanup, cleanupOne,
      AnimationClip.new, AnimationClip.is_complete, exampleHitWorld, examplePlayer,
      examplePlayerStats, exampleWeakEnemy, exampleEnemy, exampleEnemyStats, exampleLog,
      exampleConfigFull, exampleConfig, min_def, max_def, Int.floor_eq_iff]
